import Mathlib

/-!
# TempOS: context switch, resume frame, bootstrap task, scheduler alarm, page allocator,
ext2 i-node lookup

A shallow embedding of `arch/x86/kernel/task.c`, `kernel/sched.c`, `kernel/mm/kmalloc.c`,
the arithmetic of `fs/ext2/ext2.c` and the parts of `tempos/sched.h` they use.

Conventions of the embedding.

* Pointers are natural numbers, `0` is `NULL`; 32-bit unsigned arithmetic is written with
  an explicit `% 2 ^ 32`.
* Task structures, list nodes, memory maps, region headers and raw bytes live in separate
  stores, indexed by address.
* `arch_tss` is the first member of `struct _task_struct`, so a pointer to a task's
  `arch_tss` is the address of the task itself.
* Routines that are not C code of these files (`task_switch_to`, `initial_task`,
  `new_alarm`, `panic`) are recorded in the `calls` log in the order they are invoked;
  where such a routine returns a value, the value is an argument of the embedding.
* A loop that need not end takes a number of turns it may run for and gives no result when
  it has not ended by then.
-/

namespace Tempos

/-! ## Constants of `tempos/sched.h` -/

/-- Task state: Ready to run. -/
abbrev TASK_READY_TO_RUN : Int := 0
/-- Task state: Running. -/
abbrev TASK_RUNNING : Int := 1
/-- Task state: Stopped. -/
abbrev TASK_STOPPED : Int := 2
/-- Task state: Zombie. -/
abbrev TASK_ZOMBIE : Int := 3
/-- Default priority. -/
abbrev DEFAULT_PRIORITY : Int := 0
/-- PID of kernel threads. -/
abbrev KERNEL_PID : Int := 0

/-- Modelled from the spec: `x86/x86.h` is not among the sources. `EFLAGS_IF` is the
interrupt-enable flag of the x86 flags register, bit 9. -/
abbrev EFLAGS_IF : Nat := 0x200

/-- Modelled from the spec: `x86/x86.h` and the definition of `kerneldir` are not among
the sources. The two kernel segment selectors and the physical address of the kernel page
directory (`kerneldir->dir_phy_addr`) are parameters of the embedding. -/
structure X86 where
  KERNEL_CS : Nat
  KERNEL_DS : Nat
  dir_phy_addr : Nat

/-! ## Data model -/

/-- Modelled from the spec: the declaration of the register record (`arch/task.h`) is not
among the sources. The fields are the ones `task.c` names; `eflags`, `cs`, `eip` and the
general-purpose registers are 32-bit, the selectors `ds` .. `ss` 16-bit, which are the
widths `setup_task` copies them with. -/
structure pt_regs where
  eflags : Nat
  cs : Nat
  eip : Nat
  eax : Nat
  ecx : Nat
  edx : Nat
  ebx : Nat
  esp : Nat
  ebp : Nat
  esi : Nat
  edi : Nat
  ds : Nat
  es : Nat
  fs : Nat
  gs : Nat
  ss : Nat

/-- Modelled from the spec: `arch_tss_t` (`arch/task.h`, not among the sources), the
Architecture Context: the register record and the address-space root `cr3`. -/
structure arch_tss_t where
  regs : pt_regs
  cr3 : Nat

/-- The process structure `struct _task_struct` of `tempos/sched.h`. -/
structure task_t where
  arch_tss : arch_tss_t
  state : Int
  priority : Int
  pid : Int
  stack_base : Nat
  kstack : Nat
  return_code : Int
  wait_queue : Int
  i_root : Nat
  i_cdir : Nat

/-- Modelled from the spec: a node of the circular linked list (`linkedl.h`, not among
the sources). `element` is the member `GET_TASK` reads; `prev` and `next` close the ring. -/
structure c_llist where
  element : Nat
  prev : Nat
  next : Nat

/-- The memory and the global variables of `task.c` and `sched.c`. -/
structure Globals where
  /-- task structures, by address -/
  task_mem : Nat → task_t
  /-- list nodes, by address -/
  list_mem : Nat → c_llist
  /-- bytes, by address (the kernel stacks live here) -/
  ram : Nat → Nat
  /-- addresses stored to by `memcpy`, oldest first -/
  stores : List Nat
  /-- The global `tasks`: circular linked list of all processes -/
  tasks : Nat
  /-- The global `cur_task`: the current running process -/
  cur_task : Nat
  /-- The global `arch_tss_cur_task` of `task.c` -/
  arch_tss_cur_task : Nat
  /-- The global `task` of `task.c` -/
  task : Nat
  /-- The global `current_task` of `task.c` -/
  current_task : Nat
  /-- The tick counter `jiffies` -/
  jiffies : Nat
  /-- The global `scheduler_quantum` of `sched.c` -/
  scheduler_quantum : Nat

/-- The routines of the two files a function pointer can name. -/
inductive KFun where
  | init_scheduler
  | schedule
  | switch_to
  | setup_task
  | arch_init_scheduler
  deriving DecidableEq, Repr

/-- One invocation of a routine that is not C code of `task.c` / `sched.c`. -/
inductive Call where
  /-- The call `task_switch_to(&t->arch_tss)`, with the memory and globals it is invoked on -/
  | task_switch_to (t : Nat) (seen : Globals)
  /-- The call `initial_task(t)` -/
  | initial_task (t : Nat)
  /-- The call `new_alarm(expires, handler, arg)` -/
  | new_alarm (expires : Nat) (handler : KFun) (arg : Int)
  /-- The call `panic(msg)` -/
  | panic (msg : String)

/-- Memory, globals and the log of outside calls, oldest first. -/
structure Kernel extends Globals where
  calls : List Call

/-! ## `task.c`: `switch_to` -/

/-- The macro `GET_TASK(a)`: `(a == NULL ? NULL : (task_t*)a->element)`. -/
def GET_TASK (k : Kernel) (a : Nat) : Nat :=
  if a = 0 then 0 else (k.list_mem a).element

/-- The assignment `t->state = v`. -/
def set_state (m : Nat → task_t) (t : Nat) (v : Int) : Nat → task_t :=
  fun p => if p = t then { m p with state := v } else m p

/-- The low level routine `task_switch_to` (assembly, `arch/x86/task.S`): the embedding
records the invocation together with the state it sees. -/
def task_switch_to (k : Kernel) (t : Nat) : Kernel :=
  { k with calls := k.calls ++ [Call.task_switch_to t k.toGlobals] }

/-- The function `switch_to(tsk)` of `task.c`. -/
def switch_to (k : Kernel) (tsk : Nat) : Kernel :=
  let k : Kernel := { k with current_task := GET_TASK k k.cur_task }
  let k : Kernel := { k with task := GET_TASK k tsk }
  if k.current_task = 0 ∨ k.task = 0 then
    k
  else
    let k : Kernel :=
      { k with task_mem := set_state k.task_mem k.current_task TASK_READY_TO_RUN }
    let k : Kernel := { k with arch_tss_cur_task := k.current_task }
    let k : Kernel := { k with cur_task := tsk }
    let k : Kernel := { k with task_mem := set_state k.task_mem k.task TASK_RUNNING }
    task_switch_to k k.task

/-- Exactly one entry of the ring holds a task whose state is Running, and it is the
entry the cursor designates. -/
def one_running (k : Kernel) (ring : List Nat) : Prop :=
  k.cur_task ∈ ring ∧
    ∀ n ∈ ring, ((k.task_mem (GET_TASK k n)).state = TASK_RUNNING ↔ n = k.cur_task)

/-! ## `task.c`: `setup_task` -/

/-- An update of the task structure at address `t`. -/
def upd_task (k : Kernel) (t : Nat) (f : task_t → task_t) : Kernel :=
  { k with task_mem := fun p => if p = t then f (k.task_mem p) else k.task_mem p }

/-- An update of the register record of the task at address `t`. -/
def upd_regs (k : Kernel) (t : Nat) (f : pt_regs → pt_regs) : Kernel :=
  upd_task k t (fun x => { x with arch_tss := { x.arch_tss with regs := f x.arch_tss.regs } })

/-- The call `memcpy(dst, &obj, n)` for an object whose little-endian value is `v`: byte `i` of the
object goes to address `dst + i`. -/
def memcpy (k : Kernel) (dst : Nat) (v : Nat) (n : Nat) : Kernel :=
  { k with
    ram := fun a => if dst ≤ a ∧ a < dst + n then v / 256 ^ (a - dst) % 256 else k.ram a
    stores := k.stores ++ List.range' dst n }

/-- The statement `task->kstack -= n` on the `char *` member `kstack`, a 32-bit pointer. -/
def kstack_sub (k : Kernel) (t : Nat) (n : Nat) : Kernel :=
  upd_task k t (fun x => { x with kstack := (x.kstack + 2 ^ 32 - n) % 2 ^ 32 })

/-- The statement pair `task->kstack -= n; memcpy(task->kstack, &task->arch_tss.member, n);`
of `setup_task`, for the member `data` reads. -/
def kstack_push (k : Kernel) (t : Nat) (n : Nat) (data : arch_tss_t → Nat) : Kernel :=
  let k := kstack_sub k t n
  memcpy k (k.task_mem t).kstack (data (k.task_mem t).arch_tss) n

/-- The function `setup_task(task, start_routine)` of `task.c`. -/
def setup_task (X : X86) (k : Kernel) (task : Nat) (start_routine : Nat) : Kernel :=
  if task = 0 then
    k
  else
    let k := upd_regs k task (fun r => { r with eip := start_routine % 2 ^ 32 })
    let k := upd_regs k task (fun r => { r with ds := X.KERNEL_DS % 2 ^ 16 })
    let k := upd_regs k task (fun r => { r with fs := X.KERNEL_DS % 2 ^ 16 })
    let k := upd_regs k task (fun r => { r with gs := X.KERNEL_DS % 2 ^ 16 })
    let k := upd_regs k task (fun r => { r with ss := X.KERNEL_DS % 2 ^ 16 })
    let k := upd_regs k task (fun r => { r with es := X.KERNEL_DS % 2 ^ 16 })
    let k := upd_regs k task (fun r => { r with cs := X.KERNEL_CS % 2 ^ 32 })
    let k := upd_task k task
      (fun x => { x with arch_tss := { x.arch_tss with cr3 := X.dir_phy_addr % 2 ^ 32 } })
    let k := upd_regs k task (fun r => { r with eflags := 0x2020000 })
    let k := kstack_push k task 4 (fun c => c.regs.eflags)
    let k := kstack_push k task 4 (fun c => c.regs.cs)
    let k := kstack_push k task 4 (fun c => c.regs.eip)
    let k := kstack_push k task 4 (fun c => c.regs.eax)
    let k := kstack_push k task 4 (fun c => c.regs.ecx)
    let k := kstack_push k task 4 (fun c => c.regs.edx)
    let k := kstack_push k task 4 (fun c => c.regs.ebx)
    let k := kstack_push k task 4 (fun c => c.regs.esp)
    let k := kstack_push k task 4 (fun c => c.regs.ebp)
    let k := kstack_push k task 4 (fun c => c.regs.esi)
    let k := kstack_push k task 4 (fun c => c.regs.edi)
    let k := kstack_push k task 2 (fun c => c.regs.ds)
    let k := kstack_push k task 2 (fun c => c.regs.es)
    let k := kstack_push k task 2 (fun c => c.regs.fs)
    let k := kstack_push k task 2 (fun c => c.regs.gs)
    let k := kstack_push k task 2 (fun c => c.regs.ss)
    let k := kstack_push k task 4 (fun c => c.cr3)
    upd_regs k task (fun r => { r with esp := (k.task_mem task).kstack % 2 ^ 32 })

/-- The Architecture Context `c` after the assignments of `setup_task` that precede the
pushes (`task.c`, lines 94 to 102). -/
def setup_context (X : X86) (c : arch_tss_t) (start_routine : Nat) : arch_tss_t :=
  { regs :=
      { c.regs with
        eip := start_routine % 2 ^ 32
        ds := X.KERNEL_DS % 2 ^ 16
        fs := X.KERNEL_DS % 2 ^ 16
        gs := X.KERNEL_DS % 2 ^ 16
        ss := X.KERNEL_DS % 2 ^ 16
        es := X.KERNEL_DS % 2 ^ 16
        cs := X.KERNEL_CS % 2 ^ 32
        eflags := 0x2020000 }
    cr3 := X.dir_phy_addr % 2 ^ 32 }

/-- The members `setup_task` pushes, first pushed first, each with the number of bytes
it copies. -/
def frame_fields : List (Nat × (arch_tss_t → Nat)) :=
  [(4, fun c => c.regs.eflags), (4, fun c => c.regs.cs), (4, fun c => c.regs.eip),
   (4, fun c => c.regs.eax), (4, fun c => c.regs.ecx), (4, fun c => c.regs.edx),
   (4, fun c => c.regs.ebx), (4, fun c => c.regs.esp), (4, fun c => c.regs.ebp),
   (4, fun c => c.regs.esi), (4, fun c => c.regs.edi),
   (2, fun c => c.regs.ds), (2, fun c => c.regs.es), (2, fun c => c.regs.fs),
   (2, fun c => c.regs.gs), (2, fun c => c.regs.ss), (4, fun c => c.cr3)]

/-- The `n` low bytes of `v`, least significant first. -/
def le_bytes (v n : Nat) : List Nat :=
  (List.range n).map (fun i => v / 256 ^ i % 256)

/-- The memory `ram` with the bytes `l` laid out from address `base` upward. -/
def write_bytes (ram : Nat → Nat) (base : Nat) (l : List Nat) : Nat → Nat :=
  fun a => if base ≤ a ∧ a < base + l.length then l.getD (a - base) 0 else ram a

/-- The bytes a list of pushes leaves on the stack, lowest address first. -/
def frame_bytes (c : arch_tss_t) : List (Nat × (arch_tss_t → Nat)) → List Nat
  | [] => []
  | f :: fs => frame_bytes c fs ++ le_bytes (f.2 c) f.1

/-- The addresses a list of pushes stores to, in the order of the stores, from the stack
pointer `top`. -/
def frame_addrs (top : Nat) : List (Nat × (arch_tss_t → Nat)) → List Nat
  | [] => []
  | f :: fs => List.range' (top - f.1) f.1 ++ frame_addrs (top - f.1) fs

/-- The 16-bit little-endian value at address `a`. -/
def read16 (ram : Nat → Nat) (a : Nat) : Nat :=
  ram a + 256 * ram (a + 1)

/-- The 32-bit little-endian value at address `a`. -/
def read32 (ram : Nat → Nat) (a : Nat) : Nat :=
  ram a + 256 * ram (a + 1) + 65536 * ram (a + 2) + 16777216 * ram (a + 3)

/-! ## `task.c`: `arch_init_scheduler` -/

/-- Modelled from the spec: `c_llist_add` (`linkedl.c`) is not among the sources; this is
the call `c_llist_add(&tasks, element)`. The Task Ring is a circular ordered collection
kept in insertion order: the new node `node` (the storage the routine obtains for it, `0`
when it obtains none) is linked in as the last entry before the head, and an empty list
becomes the one-node ring whose head is the new node. -/
def c_llist_add (k : Kernel) (node : Nat) (element : Nat) : Kernel :=
  if node = 0 then
    k
  else if k.tasks = 0 then
    { k with
      list_mem := fun p => if p = node then ⟨element, node, node⟩ else k.list_mem p
      tasks := node }
  else
    let head := k.tasks
    let last := (k.list_mem head).prev
    let m1 : Nat → c_llist := fun p => if p = node then ⟨element, last, head⟩ else k.list_mem p
    let m2 : Nat → c_llist := fun p => if p = last then { m1 p with next := node } else m1 p
    let m3 : Nat → c_llist := fun p => if p = head then { m2 p with prev := node } else m2 p
    { k with list_mem := m3 }

/-- The routine `initial_task` (assembly): the embedding records the invocation. -/
def initial_task (k : Kernel) (t : Nat) : Kernel :=
  { k with calls := k.calls ++ [Call.initial_task t] }

/-- The function `arch_init_scheduler(start_routine)` of `task.c`. `newth` is the pointer `kmalloc`
returns (the contents of the block are what `task_mem` holds there), `node` the storage
`c_llist_add` obtains, `esp` and `eflags` the two registers the `asm` statement reads. -/
def arch_init_scheduler (X : X86) (k : Kernel) (start_routine : Nat)
    (newth node esp eflags : Nat) : Kernel :=
  if newth = 0 then
    k
  else
    let k := upd_task k newth (fun x => { x with state := TASK_RUNNING })
    let k := upd_task k newth (fun x => { x with priority := DEFAULT_PRIORITY })
    let k := upd_task k newth (fun x => { x with pid := KERNEL_PID })
    let k := upd_task k newth (fun x => { x with return_code := 0 })
    let k := upd_task k newth (fun x => { x with wait_queue := 0 })
    let k := upd_task k newth (fun x => { x with kstack := esp })
    let k := upd_regs k newth (fun r => { r with eip := start_routine % 2 ^ 32 })
    let k := upd_regs k newth (fun r => { r with ds := X.KERNEL_DS % 2 ^ 16 })
    let k := upd_regs k newth (fun r => { r with fs := X.KERNEL_DS % 2 ^ 16 })
    let k := upd_regs k newth (fun r => { r with gs := X.KERNEL_DS % 2 ^ 16 })
    let k := upd_regs k newth (fun r => { r with ss := X.KERNEL_DS % 2 ^ 16 })
    let k := upd_regs k newth (fun r => { r with es := X.KERNEL_DS % 2 ^ 16 })
    let k := upd_regs k newth (fun r => { r with esp := (k.task_mem newth).kstack % 2 ^ 32 })
    let k := upd_regs k newth (fun r => { r with cs := X.KERNEL_CS % 2 ^ 32 })
    let k := upd_task k newth
      (fun x => { x with arch_tss := { x.arch_tss with cr3 := X.dir_phy_addr % 2 ^ 32 } })
    let k := upd_regs k newth (fun r => { r with eflags := (eflags ||| EFLAGS_IF) % 2 ^ 32 })
    let k := c_llist_add k node newth
    let k : Kernel := { k with cur_task := k.tasks }
    initial_task k newth

/-! ## `sched.c` -/

/-- The timer routine `new_alarm(expires, handler, arg)`: the embedding records the request. -/
def new_alarm (k : Kernel) (expires : Nat) (handler : KFun) (arg : Int) : Kernel :=
  { k with calls := k.calls ++ [Call.new_alarm expires handler arg] }

/-- The routine `panic(msg)`: the embedding records the invocation. -/
def panic (k : Kernel) (msg : String) : Kernel :=
  { k with calls := k.calls ++ [Call.panic msg] }

/-- The function `init_scheduler()` of `sched.c`. `KERN_CRIT` is the log-level prefix of
`kernel.h`, `alarm_ok` the value `new_alarm` returns; the sum `jiffies + scheduler_quantum`
is a 32-bit sum (`scheduler_quantum` is `uint32_t`). -/
def init_scheduler (KERN_CRIT : String) (k : Kernel) (alarm_ok : Bool) : Kernel :=
  let k := new_alarm k ((k.jiffies + k.scheduler_quantum) % 2 ^ 32) KFun.schedule 0
  if !alarm_ok then
    panic k (KERN_CRIT ++ "Could not install scheduler alarm.")
  else
    k

/-- The function `schedule(p)` of `sched.c`. `KERN_CRIT` is the log-level prefix of
`kernel.h`, `alarm_ok` the value `new_alarm` returns; the sum `jiffies + scheduler_quantum`
is a 32-bit sum (`scheduler_quantum` is `uint32_t`). -/
def schedule (KERN_CRIT : String) (k : Kernel) (p : Int) (alarm_ok : Bool) : Kernel :=
  let k := new_alarm k ((k.jiffies + k.scheduler_quantum) % 2 ^ 32) KFun.schedule p
  if !alarm_ok then
    panic k (KERN_CRIT ++ "Could not install scheduler alarm.")
  else
    k

/-! ## A concrete machine -/

/-- A task structure with every member zero. -/
def task_zero : task_t :=
  { arch_tss := { regs := ⟨0, 0, 0, 0, 0, 0, 0, 0, 0, 0, 0, 0, 0, 0, 0, 0⟩, cr3 := 0 }
    state := 0, priority := 0, pid := 0, stack_base := 0, kstack := 0
    return_code := 0, wait_queue := 0, i_root := 0, i_cdir := 0 }

/-- The selectors and page directory address of the concrete machine. -/
def x86_demo : X86 :=
  { KERNEL_CS := 0x08, KERNEL_DS := 0x10, dir_phy_addr := 0x9000 }

/-- A machine that holds nothing: no task, no list node, zeroed memory. -/
def kernel_empty : Kernel :=
  { task_mem := fun _ => task_zero
    list_mem := fun _ => ⟨0, 0, 0⟩
    ram := fun _ => 0
    stores := []
    tasks := 0, cur_task := 0, arch_tss_cur_task := 0, task := 0, current_task := 0
    jiffies := 7, scheduler_quantum := 100
    calls := [] }

/-- A machine with three tasks at addresses 100, 200, 300, held in this order by the ring
nodes 1, 2, 3; the first task is the running one, the other two are ready to run. Every
task owns a kernel stack whose top is `0x1000` times its node number. -/
def kernel_demo : Kernel :=
  { kernel_empty with
    task_mem := fun p =>
      if p = 100 then { task_zero with state := TASK_RUNNING, kstack := 0x1000 }
      else if p = 200 then { task_zero with state := TASK_READY_TO_RUN, kstack := 0x2000 }
      else if p = 300 then { task_zero with state := TASK_READY_TO_RUN, kstack := 0x3000 }
      else task_zero
    list_mem := fun p =>
      if p = 1 then ⟨100, 3, 2⟩
      else if p = 2 then ⟨200, 1, 3⟩
      else if p = 3 then ⟨300, 2, 1⟩
      else ⟨0, 0, 0⟩
    tasks := 1
    cur_task := 1 }

/-! ## `kmalloc.c` -/

/-- Modelled from the spec: `tempos/mm.h` is not among the sources. The constants and the
two macros `MAKE_ENTRY` and `GET_DINDEX` that `kmalloc.c` uses are parameters of the
embedding; `PAGE_SIZE` is `2 ^ PAGE_SHIFT`. -/
structure MM where
  PAGE_SHIFT : Nat
  TABLE_SHIFT : Nat
  TABLE_SIZE : Nat
  BITMAP_SIZE : Nat
  sizeof_mregion : Nat
  GFP_DMA_Z : Nat
  GFP_USER : Nat
  GFP_ZEROP : Nat
  DMA_ZONE : Nat
  NORMAL_ZONE : Nat
  PAGE_USER : Nat
  PAGE_WRITABLE : Nat
  PAGE_PRESENT : Nat
  MAKE_ENTRY : Nat → Nat → Nat
  GET_DINDEX : Nat → Nat

/-- Modelled from the spec: the memory map `mem_map` (`tempos/mm.h`, not among the
sources). The allocation bitmap is kept by page: `bitmap p` is the bit the search of
`_vmalloc_` reads as `bitmap[i] & (BITMAP_FBIT >> j)` for `p = i * 8 + j`, the page number
it then stores in `pstart`. `tables index i` is the entry `pagedir->tables[index][i]`. -/
structure mem_map where
  bitmap : Nat → Bool
  tables : Nat → Nat → Nat

/-- Modelled from the spec: the region header `mregion` (`tempos/mm.h`, not among the
sources), with the three members `_vmalloc_` assigns. -/
structure mregion where
  memm : Nat
  initial_addr : Nat
  size : Nat

/-- The memory `kmalloc.c` works on: memory maps and region headers by address, 32-bit
words by address, and the arguments of the `free_page` calls, oldest first. -/
structure Heap where
  maps : Nat → mem_map
  regions : Nat → mregion
  words : Nat → Nat
  freed : List Nat

/-- Modelled from the spec: `bmap_on(memm, page)` (`tempos/mm.h`, not among the sources)
turns the bitmap bit of `page` on. -/
def bmap_on (m : mem_map) (page : Nat) : mem_map :=
  { m with bitmap := fun p => if p = page then true else m.bitmap p }

/-- Modelled from the spec: `bmap_off(memm, page)` (`tempos/mm.h`, not among the sources)
turns the bitmap bit of `page` off. -/
def bmap_off (m : mem_map) (page : Nat) : mem_map :=
  { m with bitmap := fun p => if p = page then false else m.bitmap p }

/-- Modelled from the spec: `PAGE_ALIGN(x)` (`tempos/mm.h`, not among the sources) rounds a
32-bit byte count up to a multiple of the page size. -/
def PAGE_ALIGN (c : MM) (x : Nat) : Nat :=
  (x + 2 ^ c.PAGE_SHIFT - 1) % 2 ^ 32 / 2 ^ c.PAGE_SHIFT * 2 ^ c.PAGE_SHIFT

/-- The assignment `table[i] = v` for `table = pgdir->tables[index]`. -/
def set_entry (m : mem_map) (index i v : Nat) : mem_map :=
  { m with tables := fun a b => if a = index ∧ b = i then v else m.tables a b }

/-- The locals `istart`, `pstart`, `apages` of the bitmap search of `_vmalloc_`. -/
structure Search where
  istart : Bool
  pstart : Nat
  apages : Nat

/-- The body of the inner `for` of the search for bit `j` of byte `i`, up to the test
that ends the inner loop. -/
def search_bit (bitmap : Nat → Bool) (npages i j : Nat) (s : Search) : Search :=
  if bitmap (i * 8 + j) = false then
    if s.istart = false then
      { istart := true, pstart := (i * 8 + j) % 2 ^ 32, apages := (s.apages + 1) % 2 ^ 32 }
    else
      { s with apages := (s.apages + 1) % 2 ^ 32 }
  else if s.apages < npages then
    { s with istart := false, apages := 0 }
  else
    s

/-- The inner `for` of the search from bit `j` of byte `i`, with `n` bits left; the
`break` leaves this loop only. -/
def search_byte (bitmap : Nat → Bool) (npages i : Nat) : Nat → Nat → Search → Search
  | 0, _, s => s
  | n + 1, j, s =>
    let s := search_bit bitmap npages i j s
    if s.apages ≥ npages then s else search_byte bitmap npages i n (j + 1) s

/-- The search of `_vmalloc_`: the outer `for` over the `BITMAP_SIZE` bytes. -/
def search_bitmap (c : MM) (bitmap : Nat → Bool) (npages : Nat) : Search :=
  (List.range c.BITMAP_SIZE).foldl (fun s i => search_byte bitmap npages i 8 0 s)
    { istart := false, pstart := 0, apages := 0 }

/-- The locals `apages`, `i`, `index` of `_vmalloc_` with the memory map they work on;
`table` is `pgdir->tables[index]` throughout. -/
structure AllocSt where
  map : mem_map
  apages : Nat
  i : Nat
  index : Nat

/-- The loop `while(apages <= npages)` of `_vmalloc_`. `alloc_page n` is what the call of
`alloc_page(mzone)` returns when `n` pages have been obtained. The second component of the
result says whether the loop was left by `goto error`; without fuel there is no result. -/
def alloc_pages (c : MM) (alloc_page : Nat → Nat) (pstart npages user_page : Nat) :
    Nat → AllocSt → Option (AllocSt × Bool)
  | 0, _ => none
  | fuel + 1, s =>
    if s.apages ≤ npages then
      if alloc_page s.apages = 0 then
        some (s, true)
      else
        let m := bmap_on s.map ((pstart + s.apages) % 2 ^ 32)
        let m := set_entry m s.index s.i
          (c.MAKE_ENTRY (alloc_page s.apages) (c.PAGE_WRITABLE ||| c.PAGE_PRESENT ||| user_page))
        let s : AllocSt := { s with map := m, apages := (s.apages + 1) % 2 ^ 32 }
        if s.i < c.TABLE_SIZE then
          alloc_pages c alloc_page pstart npages user_page fuel { s with i := (s.i + 1) % 2 ^ 32 }
        else
          alloc_pages c alloc_page pstart npages user_page fuel
            { s with index := (s.index + 1) % 2 ^ 32 }
    else
      some (s, false)

/-- The loop `while(apages > 0)` after the label `error` of `_vmalloc_`; the freed entries
are appended to `freed`. -/
def release_pages : Nat → mem_map → Nat → Nat → List Nat → mem_map × List Nat
  | 0, m, _, _, freed => (m, freed)
  | apages + 1, m, i, index, freed =>
    let freed := freed ++ [m.tables index i]
    let m := set_entry m index i 0
    if i > 0 then
      release_pages apages m (i - 1) index freed
    else
      release_pages apages m i ((index + 2 ^ 32 - 1) % 2 ^ 32) freed

/-- The loop of `_vmalloc_` that zeroes `n` 32-bit words from address `mem_block`
(`sizeof(void*)` is 4). -/
def zero_words (words : Nat → Nat) (mem_block n : Nat) : Nat → Nat :=
  (List.range n).foldl (fun w i => fun a => if a = (mem_block + 4 * i) % 2 ^ 32 then 0 else w a)
    words

/-- The function `_vmalloc_(memm, size, flags)` of `kmalloc.c`. The result is the new
memory and the pointer returned (`0` is NULL); there is none when the allocation loop does
not end. -/
def _vmalloc_ (c : MM) (alloc_page : Nat → Nat → Nat) (h : Heap) (memm size flags : Nat) :
    Option (Heap × Nat) :=
  let mzone := if flags &&& c.GFP_DMA_Z ≠ 0 then c.DMA_ZONE else c.NORMAL_ZONE
  let user_page := if flags &&& c.GFP_USER ≠ 0 then c.PAGE_USER else 0
  let size_region := (c.sizeof_mregion + size) % 2 ^ 32
  let npages := PAGE_ALIGN c size_region / 2 ^ c.PAGE_SHIFT
  let found := search_bitmap c (h.maps memm).bitmap npages
  if found.apages < npages then
    some (h, 0)
  else
    let pstart := found.pstart
    let index := c.GET_DINDEX pstart
    let i := (pstart + 2 ^ 32 - (c.TABLE_SIZE * index) % 2 ^ 32) % 2 ^ 32
    match alloc_pages c (alloc_page mzone) pstart npages user_page (npages + 2)
        { map := h.maps memm, apages := 0, i := i, index := index } with
    | none => none
    | some (s, true) =>
      let r := release_pages s.apages s.map s.i s.index h.freed
      some ({ h with
              maps := fun a => if a = memm then r.1 else h.maps a
              freed := r.2 }, 0)
    | some (s, false) =>
      let mem_block := (pstart * 2 ^ c.PAGE_SHIFT) % 2 ^ 32
      let h : Heap :=
        { h with
          maps := fun a => if a = memm then s.map else h.maps a
          regions := fun a =>
            if a = mem_block then { memm := memm, initial_addr := pstart, size := npages }
            else h.regions a }
      let mem_block := (mem_block + c.sizeof_mregion) % 2 ^ 32
      if flags &&& c.GFP_ZEROP ≠ 0 then
        some ({ h with
                words := zero_words h.words mem_block
                  ((size + 2 ^ 32 - c.sizeof_mregion % 2 ^ 32) % 2 ^ 32 / 4) }, mem_block)
      else
        some (h, mem_block)

/-- The function `kmalloc(size, flags)` of `kmalloc.c`; `kmem` is the address of the
kernel memory map. -/
def kmalloc (c : MM) (alloc_page : Nat → Nat → Nat) (h : Heap) (kmem size flags : Nat) :
    Option (Heap × Nat) :=
  _vmalloc_ c alloc_page h kmem size flags

/-- The locals `dpages`, `i`, `j` of `kfree` with the memory map and the `free_page` log
they work on; `table` is `pgdir->tables[j]` throughout. -/
structure FreeSt where
  map : mem_map
  freed : List Nat
  dpages : Nat
  i : Nat
  j : Nat

/-- The loop `while(dpages >= ffpage)` of `kfree`, on 32-bit unsigned locals; without fuel
there is no result. -/
def kfree_loop (initial_addr ffpage : Nat) : Nat → FreeSt → Option FreeSt
  | 0, _ => none
  | fuel + 1, s =>
    if s.dpages ≥ ffpage then
      let freed := s.freed ++ [s.map.tables s.j s.i]
      let m := bmap_off s.map ((initial_addr + s.dpages) % 2 ^ 32)
      let s : FreeSt := { s with map := m, freed := freed, dpages := (s.dpages + 2 ^ 32 - 1) % 2 ^ 32 }
      if s.i > 0 then
        kfree_loop initial_addr ffpage fuel { s with i := s.i - 1 }
      else
        kfree_loop initial_addr ffpage fuel { s with j := (s.j + 2 ^ 32 - 1) % 2 ^ 32 }
    else
      some s

/-- The function `kfree(ptr)` of `kmalloc.c`, run for at most `fuel` turns of its loop;
there is no result when the loop has not ended by then. -/
def kfree (c : MM) (fuel : Nat) (h : Heap) (ptr : Nat) : Option Heap :=
  let mem_area := h.regions ((ptr + 2 ^ 32 - c.sizeof_mregion % 2 ^ 32) % 2 ^ 32)
  let memm := mem_area.memm
  let index := mem_area.initial_addr / 2 ^ c.TABLE_SHIFT
  let ffpage := (mem_area.initial_addr + 2 ^ 32 - (c.TABLE_SIZE * index) % 2 ^ 32) % 2 ^ 32
  let lpage := (ffpage + mem_area.size + 2 ^ 32 - 1) % 2 ^ 32
  match kfree_loop mem_area.initial_addr ffpage fuel
      { map := h.maps memm, freed := h.freed, dpages := lpage, i := ffpage, j := index } with
  | none => none
  | some s =>
    some { h with
           maps := fun a => if a = memm then s.map else h.maps a
           freed := s.freed }

/-- The constants of a 32-bit x86 machine with 4 KiB pages, 1024-entry page tables, a
12-byte region header and a bitmap of 4 bytes (32 pages). -/
def mm_demo : MM :=
  { PAGE_SHIFT := 12, TABLE_SHIFT := 10, TABLE_SIZE := 1024, BITMAP_SIZE := 4
    sizeof_mregion := 12
    GFP_DMA_Z := 1, GFP_USER := 2, GFP_ZEROP := 4
    DMA_ZONE := 0, NORMAL_ZONE := 1
    PAGE_USER := 4, PAGE_WRITABLE := 2, PAGE_PRESENT := 1
    MAKE_ENTRY := fun page flags => page ||| flags
    GET_DINDEX := fun page => page / 1024 }

/-- A page allocator that never fails: the `n`-th page it hands out is at `0x100000` plus
`n` pages. -/
def alloc_page_demo : Nat → Nat → Nat :=
  fun _ n => 0x100000 + 0x1000 * n

/-- A memory whose only memory map, at address `0x500`, has every page free. -/
def heap_free : Heap :=
  { maps := fun _ => { bitmap := fun _ => false, tables := fun _ _ => 0 }
    regions := fun _ => { memm := 0, initial_addr := 0, size := 0 }
    words := fun _ => 0
    freed := [] }

/-- A memory whose memory map has page 0 in use and every other page free. -/
def heap_page0 : Heap :=
  { heap_free with
    maps := fun _ => { bitmap := fun p => decide (p = 0), tables := fun _ _ => 0 } }

/-! ## `ext2.c` -/

/-- The sector size `SECTOR_SIZE` of `ext2.c`. -/
abbrev SECTOR_SIZE : Nat := 512

/-- Modelled from the spec: `fs/ext2/ext2.h` is not among the sources. The root i-node
number, the two block-size codes and the size of the on-disk i-node are parameters of the
embedding. -/
structure Ext2 where
  EXT2_ROOT_INO : Nat
  EXT2_BLOCK_SIZE_2k : Nat
  EXT2_BLOCK_SIZE_4k : Nat
  sizeof_ext2_inode_t : Nat

/-- Modelled from the spec: the super block `ext2_superblock_t` (`fs/ext2/ext2.h`, not
among the sources), with the 32-bit members `ext2_get_inode` and `get_block_size` read. -/
structure ext2_superblock_t where
  s_inodes_per_group : Nat
  s_blocks_per_group : Nat
  s_rev_level : Nat
  s_log_block_size : Nat

/-- Modelled from the spec: the group descriptor `ext2_group_t` (`fs/ext2/ext2.h`, not
among the sources), with the member `ext2_get_inode` reads. -/
structure ext2_group_t where
  bg_inode_table : Nat

/-- The function `div_rup(a, b)` of `ext2.c` on 32-bit unsigned values; a division by zero
gives no result. -/
def div_rup (a b : Nat) : Option Nat :=
  if b = 0 then
    none
  else
    let res := a / b
    if (res * b) % 2 ^ 32 < a then some ((res + 1) % 2 ^ 32) else some res

/-- The function `get_block_size(sb)` of `ext2.c`. -/
def get_block_size (c : Ext2) (sb : ext2_superblock_t) : Nat :=
  if sb.s_log_block_size = c.EXT2_BLOCK_SIZE_2k then 2048
  else if sb.s_log_block_size = c.EXT2_BLOCK_SIZE_4k then 4096
  else 1024

/-- The condition `i == 1 || (i % 3) == 0 || (i % 5) == 0 || (i % 7) == 0` of the loop of
`ext2_get_inode`: the groups for which the loop does not subtract 2 blocks. -/
def backup_group (i : Nat) : Bool :=
  i == 1 || i % 3 == 0 || i % 5 == 0 || i % 7 == 0

/-- The value of `grp_block` in `ext2_get_inode` for the group `grp_number`. -/
def ext2_grp_block (sb : ext2_superblock_t) (gdesc : ext2_group_t) (grp_number : Nat) : Nat :=
  if sb.s_rev_level > 0 then
    (List.range' 1 grp_number).foldl
      (fun grp_block i =>
        let grp_block := (grp_block + sb.s_blocks_per_group) % 2 ^ 32
        if backup_group i then grp_block else (grp_block + 2 ^ 32 - 2) % 2 ^ 32)
      gdesc.bg_inode_table
  else
    ((sb.s_blocks_per_group * grp_number) % 2 ^ 32 + gdesc.bg_inode_table) % 2 ^ 32

/-- The i-node number `ext2_get_inode` works with: the root i-node for number 0. -/
def inode_number (c : Ext2) (number : Nat) : Nat :=
  if number = 0 then c.EXT2_ROOT_INO else number

/-- The locals of `ext2_get_inode` when it calls `bread`: the sector read is `itab_addr`,
the offset copied from is `iblk_addr`. -/
structure InodeLoc where
  grp_number : Nat
  number : Nat
  grp_block : Nat
  itab_addr : Nat
  iblk_addr : Nat

/-- The function `ext2_get_inode` of `ext2.c` up to its call of `bread`, on 32-bit unsigned
values; the division by an `s_inodes_per_group` of zero gives no result. -/
def ext2_get_inode (c : Ext2) (sb : ext2_superblock_t) (gdesc : ext2_group_t)
    (number : Nat) : Option InodeLoc :=
  let number := inode_number c number
  if sb.s_inodes_per_group = 0 then
    none
  else
    let grp_number := (number + 2 ^ 32 - 1) % 2 ^ 32 / sb.s_inodes_per_group
    let grp_block := ext2_grp_block sb gdesc grp_number
    let number :=
      if grp_number > 0 then
        (number + 2 ^ 32 - (grp_number * sb.s_inodes_per_group) % 2 ^ 32) % 2 ^ 32
      else number
    let itab_addr := (grp_block * get_block_size c sb) % 2 ^ 32
    let iblk := ((number + 2 ^ 32 - 1) % 2 ^ 32 * c.sizeof_ext2_inode_t) % 2 ^ 32
    let itab_addr := (itab_addr + iblk) % 2 ^ 32
    let itab_addr := itab_addr / SECTOR_SIZE
    let iblk_addr := (iblk + 2 ^ 32 - (iblk / SECTOR_SIZE * SECTOR_SIZE) % 2 ^ 32) % 2 ^ 32
    some
      { grp_number := grp_number, number := number, grp_block := grp_block
        itab_addr := itab_addr, iblk_addr := iblk_addr }

/-- The constants of the ext2 format: root i-node 2, block-size codes 1 and 2, i-nodes of
128 bytes. -/
def ext2_demo : Ext2 :=
  { EXT2_ROOT_INO := 2, EXT2_BLOCK_SIZE_2k := 1, EXT2_BLOCK_SIZE_4k := 2
    sizeof_ext2_inode_t := 128 }

/-- A revision 1 super block with 8 i-nodes and 100 blocks of 1024 bytes per group. -/
def sb_rev1 : ext2_superblock_t :=
  { s_inodes_per_group := 8, s_blocks_per_group := 100, s_rev_level := 1
    s_log_block_size := 0 }

/-- A revision 0 super block with 100 i-nodes and 8192 blocks of 1024 bytes per group. -/
def sb_rev0 : ext2_superblock_t :=
  { s_inodes_per_group := 100, s_blocks_per_group := 8192, s_rev_level := 0
    s_log_block_size := 0 }

/-! ## The context switch -/

/-- The state field after the assignment `t->state = v`. -/
theorem set_state_state (m : Nat → task_t) (t : Nat) (v : Int) (p : Nat) :
    (set_state m t v p).state = if p = t then v else (m p).state := by
  unfold set_state
  split <;> rfl

/-- The guard of `switch_to` reads the list store only, which the two first assignments
leave alone. -/
theorem switch_to_of_null (k : Kernel) (tsk : Nat)
    (h : GET_TASK k k.cur_task = 0 ∨ GET_TASK k tsk = 0) :
    switch_to k tsk =
      { k with current_task := GET_TASK k k.cur_task, task := GET_TASK k tsk } := by
  unfold switch_to
  simp only [GET_TASK] at h ⊢
  rw [if_pos h]

/-- The result of `switch_to` when both the cursor and the target hold a task. -/
theorem switch_to_of_valid (k : Kernel) (tsk : Nat)
    (hC : GET_TASK k k.cur_task ≠ 0) (hT : GET_TASK k tsk ≠ 0) :
    switch_to k tsk =
      task_switch_to
        { k with
          current_task := GET_TASK k k.cur_task
          task := GET_TASK k tsk
          task_mem := set_state (set_state k.task_mem (GET_TASK k k.cur_task) TASK_READY_TO_RUN)
            (GET_TASK k tsk) TASK_RUNNING
          arch_tss_cur_task := GET_TASK k k.cur_task
          cur_task := tsk }
        (GET_TASK k tsk) := by
  unfold switch_to
  simp only [GET_TASK] at hC hT ⊢
  rw [if_neg (by simp only [not_or]; exact ⟨hC, hT⟩)]

/-- C1: when the cursor is null or holds no task, or the target node is null or holds no
task, `switch_to` returns with the cursor, every task structure (so every state field),
the list nodes, the list head, the save destination `arch_tss_cur_task` and the log of
outside calls (so no `task_switch_to`) unchanged. -/
theorem switch_to_null_is_noop (k : Kernel) (tsk : Nat)
    (h : GET_TASK k k.cur_task = 0 ∨ GET_TASK k tsk = 0) :
    (switch_to k tsk).cur_task = k.cur_task ∧
      (∀ t, ((switch_to k tsk).task_mem t).state = (k.task_mem t).state) ∧
      (switch_to k tsk).task_mem = k.task_mem ∧
      (switch_to k tsk).list_mem = k.list_mem ∧
      (switch_to k tsk).tasks = k.tasks ∧
      (switch_to k tsk).arch_tss_cur_task = k.arch_tss_cur_task ∧
      (switch_to k tsk).calls = k.calls := by
  rw [switch_to_of_null k tsk h]
  exact ⟨rfl, fun _ => rfl, rfl, rfl, rfl, rfl, rfl⟩

/-- C1 at the three-task machine with a target node that holds no task. -/
theorem switch_to_null_is_noop_witness :
    (GET_TASK kernel_demo kernel_demo.cur_task = 0 ∨ GET_TASK kernel_demo 7 = 0) ∧
      (switch_to kernel_demo 7).cur_task = kernel_demo.cur_task ∧
      (∀ t, ((switch_to kernel_demo 7).task_mem t).state = (kernel_demo.task_mem t).state) ∧
      (switch_to kernel_demo 7).task_mem = kernel_demo.task_mem ∧
      (switch_to kernel_demo 7).list_mem = kernel_demo.list_mem ∧
      (switch_to kernel_demo 7).tasks = kernel_demo.tasks ∧
      (switch_to kernel_demo 7).arch_tss_cur_task = kernel_demo.arch_tss_cur_task ∧
      (switch_to kernel_demo 7).calls = kernel_demo.calls :=
  ⟨by decide, switch_to_null_is_noop kernel_demo 7 (by decide)⟩

/-- C2: with a valid current task `C` and a valid target holding `T`, `switch_to` ends with
the save destination on `C`, the cursor on the target, `T` Running, `C` ReadyToRun when
`C` and `T` differ, and exactly one more outside call, `task_switch_to` on `T`, invoked on
the final memory and globals, that is after all of these updates. -/
theorem switch_to_valid (k : Kernel) (tsk : Nat)
    (hC : GET_TASK k k.cur_task ≠ 0) (hT : GET_TASK k tsk ≠ 0) :
    (switch_to k tsk).arch_tss_cur_task = GET_TASK k k.cur_task ∧
      (switch_to k tsk).cur_task = tsk ∧
      ((switch_to k tsk).task_mem (GET_TASK k tsk)).state = TASK_RUNNING ∧
      (GET_TASK k k.cur_task ≠ GET_TASK k tsk →
        ((switch_to k tsk).task_mem (GET_TASK k k.cur_task)).state = TASK_READY_TO_RUN) ∧
      (switch_to k tsk).calls =
        k.calls ++ [Call.task_switch_to (GET_TASK k tsk) (switch_to k tsk).toGlobals] := by
  rw [switch_to_of_valid k tsk hC hT]
  refine ⟨rfl, rfl, ?_, ?_, rfl⟩
  · simp [task_switch_to, set_state]
  · intro hne
    simp [task_switch_to, set_state, hne]

/-- C2 at the three-task machine, switching from the first task to the second. -/
theorem switch_to_valid_witness :
    GET_TASK kernel_demo kernel_demo.cur_task ≠ 0 ∧ GET_TASK kernel_demo 2 ≠ 0 ∧
      (switch_to kernel_demo 2).arch_tss_cur_task = GET_TASK kernel_demo kernel_demo.cur_task ∧
      (switch_to kernel_demo 2).cur_task = 2 ∧
      ((switch_to kernel_demo 2).task_mem (GET_TASK kernel_demo 2)).state = TASK_RUNNING ∧
      (GET_TASK kernel_demo kernel_demo.cur_task ≠ GET_TASK kernel_demo 2 →
        ((switch_to kernel_demo 2).task_mem (GET_TASK kernel_demo kernel_demo.cur_task)).state
          = TASK_READY_TO_RUN) ∧
      (switch_to kernel_demo 2).calls =
        kernel_demo.calls ++
          [Call.task_switch_to (GET_TASK kernel_demo 2) (switch_to kernel_demo 2).toGlobals] :=
  ⟨by decide, by decide, switch_to_valid kernel_demo 2 (by decide) (by decide)⟩

/-- C3: on a ring whose nodes hold pairwise distinct tasks, `switch_to` on any node of the
ring preserves "exactly one entry holds a Running task, and it is the cursor's entry",
whatever the state of the target's task. -/
theorem switch_to_preserves_one_running (k : Kernel) (ring : List Nat) (tsk : Nat)
    (hdist : (ring.map (GET_TASK k)).Nodup) (htsk : tsk ∈ ring)
    (hinv : one_running k ring) :
    one_running (switch_to k tsk) ring := by
  by_cases h : GET_TASK k k.cur_task = 0 ∨ GET_TASK k tsk = 0
  · rw [switch_to_of_null k tsk h]
    exact hinv
  · simp only [not_or] at h
    obtain ⟨hC, hT⟩ := h
    rw [switch_to_of_valid k tsk hC hT]
    obtain ⟨hcur, hall⟩ := hinv
    have hinj : ∀ a ∈ ring, ∀ b ∈ ring, GET_TASK k a = GET_TASK k b → a = b :=
      fun a ha b hb hab => List.inj_on_of_nodup_map hdist ha hb hab
    refine ⟨htsk, fun n hn => ?_⟩
    show (set_state (set_state k.task_mem (GET_TASK k k.cur_task) TASK_READY_TO_RUN)
      (GET_TASK k tsk) TASK_RUNNING (GET_TASK k n)).state = TASK_RUNNING ↔ n = tsk
    rw [set_state_state, set_state_state]
    by_cases hnT : GET_TASK k n = GET_TASK k tsk
    · have : n = tsk := hinj n hn tsk htsk hnT
      rw [if_pos hnT]
      exact ⟨fun _ => this, fun _ => rfl⟩
    · have hne : n ≠ tsk := fun e => hnT (by rw [e])
      rw [if_neg hnT]
      by_cases hnC : GET_TASK k n = GET_TASK k k.cur_task
      · rw [if_pos hnC]
        exact ⟨fun e => absurd e (by decide), fun e => absurd e hne⟩
      · have hnc : n ≠ k.cur_task := fun e => hnC (by rw [e])
        rw [if_neg hnC]
        exact ⟨fun e => absurd ((hall n hn).mp e) hnc, fun e => absurd e hne⟩

/-- C3 at the three-task machine, switching to the third task. -/
theorem switch_to_preserves_one_running_witness :
    ([1, 2, 3].map (GET_TASK kernel_demo)).Nodup ∧ 3 ∈ [1, 2, 3] ∧
      one_running kernel_demo [1, 2, 3] ∧
      one_running (switch_to kernel_demo 3) [1, 2, 3] :=
  ⟨by decide, by decide, by simp [one_running, GET_TASK, kernel_demo],
    switch_to_preserves_one_running kernel_demo [1, 2, 3] 3 (by decide) (by decide)
      (by simp [one_running, GET_TASK, kernel_demo])⟩

/-! ## The resume frame -/

/-- Laying out no byte leaves the memory as it is. -/
theorem write_bytes_nil (ram : Nat → Nat) (base : Nat) : write_bytes ram base [] = ram := by
  funext a
  simp [write_bytes]

/-- Length of a little-endian byte list. -/
theorem le_bytes_length (v n : Nat) : (le_bytes v n).length = n := by
  simp [le_bytes]

/-- Byte `i` of a little-endian byte list. -/
theorem le_bytes_getD (v n i : Nat) (h : i < n) :
    (le_bytes v n).getD i 0 = v / 256 ^ i % 256 := by
  simp [le_bytes, List.getD_eq_getElem?_getD, List.getElem?_map, List.getElem?_range h]

/-- Laying out `l1` right below an earlier layout `l` is laying out `l1 ++ l`. -/
theorem write_bytes_below (ram : Nat → Nat) (base : Nat) (l1 l : List Nat) (a : Nat) :
    (if base ≤ a ∧ a < base + l1.length then l1.getD (a - base) 0
      else write_bytes ram (base + l1.length) l a) =
    write_bytes ram base (l1 ++ l) a := by
  unfold write_bytes
  by_cases h1 : base ≤ a ∧ a < base + l1.length
  · rw [if_pos h1, if_pos ⟨h1.1, by rw [List.length_append]; omega⟩,
      List.getD_append _ _ _ _ (by omega)]
  · rw [if_neg h1]
    by_cases h2 : base + l1.length ≤ a ∧ a < base + l1.length + l.length
    · rw [if_pos h2, if_pos ⟨by omega, by rw [List.length_append]; omega⟩,
        List.getD_append_right _ _ _ _ (by omega)]
      congr 1
      omega
    · rw [if_neg h2, if_neg (by rw [List.length_append]; omega)]

/-- One push: the stack pointer moves down by `n`, the `n` low bytes of the member are
laid out right below what is on the stack, and nothing else changes. -/
theorem kstack_push_spec (k : Kernel) (t n : Nat) (data : arch_tss_t → Nat)
    (ram0 : Nat → Nat) (l : List Nat)
    (hn : n ≤ (k.task_mem t).kstack) (hhi : (k.task_mem t).kstack < 2 ^ 32)
    (hram : k.ram = write_bytes ram0 (k.task_mem t).kstack l) :
    (kstack_push k t n data).task_mem t =
        { k.task_mem t with kstack := (k.task_mem t).kstack - n } ∧
      (∀ p, p ≠ t → (kstack_push k t n data).task_mem p = k.task_mem p) ∧
      (kstack_push k t n data).ram =
        write_bytes ram0 ((k.task_mem t).kstack - n)
          (le_bytes (data (k.task_mem t).arch_tss) n ++ l) ∧
      (kstack_push k t n data).stores =
        k.stores ++ List.range' ((k.task_mem t).kstack - n) n := by
  have hsub : ((k.task_mem t).kstack + 4294967296 - n) % 4294967296 =
      (k.task_mem t).kstack - n := by
    omega
  refine ⟨?_, ?_, ?_, ?_⟩
  · simp [kstack_push, memcpy, kstack_sub, upd_task, hsub]
  · intro p hp
    simp [kstack_push, memcpy, kstack_sub, upd_task, hp]
  · funext a
    have := write_bytes_below ram0 ((k.task_mem t).kstack - n)
      (le_bytes (data (k.task_mem t).arch_tss) n) l a
    rw [le_bytes_length, Nat.sub_add_cancel hn] at this
    rw [← this, ← hram]
    simp only [kstack_push, memcpy, kstack_sub, upd_task, if_true, Nat.reducePow, hsub,
      Nat.sub_add_cancel hn]
    by_cases h : (k.task_mem t).kstack - n ≤ a ∧ a < (k.task_mem t).kstack
    · rw [if_pos h, if_pos h, le_bytes_getD _ _ _ (by omega)]
    · rw [if_neg h, if_neg h]
  · simp [kstack_push, memcpy, kstack_sub, upd_task, hsub]

/-- A run of pushes: the stack pointer moves down by the total size, the bytes of the
pushed members are laid out below what is on the stack, lowest address first, and the
stores go to the addresses `frame_addrs` lists. -/
theorem foldl_kstack_push (t : Nat) (fs : List (Nat × (arch_tss_t → Nat))) :
    ∀ (k : Kernel) (ram0 : Nat → Nat) (l : List Nat),
      (fs.map Prod.fst).sum ≤ (k.task_mem t).kstack → (k.task_mem t).kstack < 2 ^ 32 →
      k.ram = write_bytes ram0 (k.task_mem t).kstack l →
      (fs.foldl (fun k f => kstack_push k t f.1 f.2) k).task_mem t =
          { k.task_mem t with kstack := (k.task_mem t).kstack - (fs.map Prod.fst).sum } ∧
        (fs.foldl (fun k f => kstack_push k t f.1 f.2) k).ram =
          write_bytes ram0 ((k.task_mem t).kstack - (fs.map Prod.fst).sum)
            (frame_bytes (k.task_mem t).arch_tss fs ++ l) ∧
        (fs.foldl (fun k f => kstack_push k t f.1 f.2) k).stores =
          k.stores ++ frame_addrs (k.task_mem t).kstack fs := by
  induction fs with
  | nil =>
    intro k ram0 l _ _ hram
    simp [frame_bytes, frame_addrs, hram]
  | cons f fs ih =>
    intro k ram0 l hsum hhi hram
    simp only [List.map_cons, List.sum_cons] at hsum
    obtain ⟨h1, _, h3, h4⟩ := kstack_push_spec k t f.1 f.2 ram0 l (by omega) hhi hram
    have hk : ((kstack_push k t f.1 f.2).task_mem t).kstack = (k.task_mem t).kstack - f.1 := by
      rw [h1]
    have hc : ((kstack_push k t f.1 f.2).task_mem t).arch_tss = (k.task_mem t).arch_tss := by
      rw [h1]
    obtain ⟨i1, i2, i3⟩ := ih (kstack_push k t f.1 f.2) ram0
      (le_bytes (f.2 (k.task_mem t).arch_tss) f.1 ++ l)
      (by rw [hk]; omega) (by rw [hk]; omega) (by rw [hk]; exact h3)
    simp only [List.foldl_cons, List.map_cons, List.sum_cons, frame_bytes, frame_addrs]
    refine ⟨?_, ?_, ?_⟩
    · rw [i1, h1, Nat.sub_sub]
    · rw [i2, hk, hc, Nat.sub_sub, List.append_assoc]
    · rw [i3, h4, hk, List.append_assoc]

/-- The addresses a run of pushes stores to are the ones from the new stack pointer up to
the old one, with no gap. -/
theorem mem_frame_addrs (fs : List (Nat × (arch_tss_t → Nat))) :
    ∀ (top a : Nat), (fs.map Prod.fst).sum ≤ top →
      (a ∈ frame_addrs top fs ↔ top - (fs.map Prod.fst).sum ≤ a ∧ a < top) := by
  induction fs with
  | nil =>
    intro top a _
    simp [frame_addrs]
  | cons f fs ih =>
    intro top a hsum
    simp only [List.map_cons, List.sum_cons] at hsum ⊢
    simp only [frame_addrs, List.mem_append, List.mem_range'_1, ih (top - f.1) a (by omega)]
    omega

/-- Two updates of the same task structure are one update. -/
theorem upd_task_upd_task (k : Kernel) (t : Nat) (f g : task_t → task_t) :
    upd_task (upd_task k t f) t g = upd_task k t (fun x => g (f x)) := by
  unfold upd_task
  congr 2
  funext p
  by_cases h : p = t
  · simp [h]
  · simp [h]


/-- An update of a register record leaves the bytes alone. -/
theorem upd_regs_ram (k : Kernel) (t : Nat) (f : pt_regs → pt_regs) :
    (upd_regs k t f).ram = k.ram := rfl

/-- An update of a register record stores to no address. -/
theorem upd_regs_stores (k : Kernel) (t : Nat) (f : pt_regs → pt_regs) :
    (upd_regs k t f).stores = k.stores := rfl

/-- The result of `setup_task` in closed form: the context, the stack pointer, the bytes
of the frame and the addresses stored to. -/
theorem setup_task_frame (X : X86) (k : Kernel) (task E : Nat) (h0 : task ≠ 0)
    (hlo : 58 ≤ (k.task_mem task).kstack) (hhi : (k.task_mem task).kstack < 2 ^ 32) :
    (setup_task X k task E).task_mem task =
        { k.task_mem task with
          arch_tss :=
            { regs :=
                { (setup_context X (k.task_mem task).arch_tss E).regs with
                  esp := (k.task_mem task).kstack - 58 }
              cr3 := X.dir_phy_addr % 2 ^ 32 }
          kstack := (k.task_mem task).kstack - 58 } ∧
      (setup_task X k task E).ram =
        write_bytes k.ram ((k.task_mem task).kstack - 58)
          (frame_bytes (setup_context X (k.task_mem task).arch_tss E) frame_fields) ∧
      (setup_task X k task E).stores =
        k.stores ++ frame_addrs (k.task_mem task).kstack frame_fields := by
  obtain ⟨k1, hk1⟩ : ∃ k1 : Kernel, k1 =
      upd_regs (upd_task (upd_regs (upd_regs (upd_regs (upd_regs (upd_regs (upd_regs (upd_regs k
        task (fun r => { r with eip := E % 2 ^ 32 }))
        task (fun r => { r with ds := X.KERNEL_DS % 2 ^ 16 }))
        task (fun r => { r with fs := X.KERNEL_DS % 2 ^ 16 }))
        task (fun r => { r with gs := X.KERNEL_DS % 2 ^ 16 }))
        task (fun r => { r with ss := X.KERNEL_DS % 2 ^ 16 }))
        task (fun r => { r with es := X.KERNEL_DS % 2 ^ 16 }))
        task (fun r => { r with cs := X.KERNEL_CS % 2 ^ 32 }))
        task (fun x => { x with arch_tss := { x.arch_tss with cr3 := X.dir_phy_addr % 2 ^ 32 } }))
        task (fun r => { r with eflags := 0x2020000 }) := ⟨_, rfl⟩
  have e : setup_task X k task E =
      upd_regs (frame_fields.foldl (fun k f => kstack_push k task f.1 f.2) k1) task
        (fun r => { r with esp :=
          ((frame_fields.foldl (fun k f => kstack_push k task f.1 f.2) k1).task_mem
            task).kstack % 2 ^ 32 }) := by
    subst hk1
    unfold setup_task
    rw [if_neg h0]
    simp only [frame_fields, List.foldl]
  have hT : k1.task_mem task =
      { k.task_mem task with arch_tss := setup_context X (k.task_mem task).arch_tss E } := by
    rw [hk1]
    simp [upd_regs, upd_task, setup_context]
  have hR : k1.ram = k.ram := by rw [hk1]; rfl
  have hS : k1.stores = k.stores := by rw [hk1]; rfl
  obtain ⟨i1, i2, i3⟩ := foldl_kstack_push task frame_fields k1 k.ram []
    (by rw [hT]; exact hlo) (by rw [hT]; exact hhi) (by rw [write_bytes_nil, hR])
  rw [hT] at i1 i2 i3
  have hs : (frame_fields.map Prod.fst).sum = 58 := rfl
  rw [e]
  refine ⟨?_, ?_, ?_⟩
  · simp only [upd_regs, upd_task, if_true, i1, hs]
    have : ((k.task_mem task).kstack - 58) % 2 ^ 32 = (k.task_mem task).kstack - 58 := by
      omega
    rw [this]
    rfl
  · rw [upd_regs_ram, i2, hs, List.append_nil]
  · rw [upd_regs_stores, i3, hS]


/-- A byte inside a layout. -/
theorem write_bytes_get (ram : Nat → Nat) (base : Nat) (l : List Nat) (i : Nat)
    (h : i < l.length) : write_bytes ram base l (base + i) = l.getD i 0 := by
  unfold write_bytes
  rw [if_pos ⟨by omega, by omega⟩, Nat.add_sub_cancel_left]

/-- A byte outside a layout. -/
theorem write_bytes_out (ram : Nat → Nat) (base : Nat) (l : List Nat) (a : Nat)
    (h : a < base ∨ base + l.length ≤ a) : write_bytes ram base l a = ram a := by
  unfold write_bytes
  rw [if_neg (by omega)]

/-- A 32-bit little-endian member inside a layout. -/
theorem read32_frame (ram : Nat → Nat) (base : Nat) (l : List Nat) (i v : Nat)
    (hlen : i + 4 ≤ l.length)
    (h0 : l.getD i 0 = v % 256) (h1 : l.getD (i + 1) 0 = v / 256 % 256)
    (h2 : l.getD (i + 2) 0 = v / 65536 % 256) (h3 : l.getD (i + 3) 0 = v / 16777216 % 256) :
    read32 (write_bytes ram base l) (base + i) = v % 2 ^ 32 := by
  unfold read32
  rw [Nat.add_assoc base i 1, Nat.add_assoc base i 2, Nat.add_assoc base i 3,
    write_bytes_get _ _ _ i (by omega), write_bytes_get _ _ _ (i + 1) (by omega),
    write_bytes_get _ _ _ (i + 2) (by omega), write_bytes_get _ _ _ (i + 3) (by omega),
    h0, h1, h2, h3]
  norm_num
  omega

/-- A 16-bit little-endian member inside a layout. -/
theorem read16_frame (ram : Nat → Nat) (base : Nat) (l : List Nat) (i v : Nat)
    (hlen : i + 2 ≤ l.length)
    (h0 : l.getD i 0 = v % 256) (h1 : l.getD (i + 1) 0 = v / 256 % 256) :
    read16 (write_bytes ram base l) (base + i) = v % 2 ^ 16 := by
  unfold read16
  rw [Nat.add_assoc base i 1, write_bytes_get _ _ _ i (by omega),
    write_bytes_get _ _ _ (i + 1) (by omega), h0, h1]
  norm_num
  omega

/-- The bytes of the frame `setup_task` builds, lowest address first. -/
theorem frame_bytes_frame_fields (c : arch_tss_t) :
    frame_bytes c frame_fields =
      [c.cr3 % 256, c.cr3 / 256 % 256, c.cr3 / 65536 % 256,
       c.cr3 / 16777216 % 256, c.regs.ss % 256, c.regs.ss / 256 % 256,
       c.regs.gs % 256, c.regs.gs / 256 % 256, c.regs.fs % 256,
       c.regs.fs / 256 % 256, c.regs.es % 256, c.regs.es / 256 % 256,
       c.regs.ds % 256, c.regs.ds / 256 % 256, c.regs.edi % 256,
       c.regs.edi / 256 % 256, c.regs.edi / 65536 % 256, c.regs.edi / 16777216 % 256,
       c.regs.esi % 256, c.regs.esi / 256 % 256, c.regs.esi / 65536 % 256,
       c.regs.esi / 16777216 % 256, c.regs.ebp % 256, c.regs.ebp / 256 % 256,
       c.regs.ebp / 65536 % 256, c.regs.ebp / 16777216 % 256, c.regs.esp % 256,
       c.regs.esp / 256 % 256, c.regs.esp / 65536 % 256, c.regs.esp / 16777216 % 256,
       c.regs.ebx % 256, c.regs.ebx / 256 % 256, c.regs.ebx / 65536 % 256,
       c.regs.ebx / 16777216 % 256, c.regs.edx % 256, c.regs.edx / 256 % 256,
       c.regs.edx / 65536 % 256, c.regs.edx / 16777216 % 256, c.regs.ecx % 256,
       c.regs.ecx / 256 % 256, c.regs.ecx / 65536 % 256, c.regs.ecx / 16777216 % 256,
       c.regs.eax % 256, c.regs.eax / 256 % 256, c.regs.eax / 65536 % 256,
       c.regs.eax / 16777216 % 256, c.regs.eip % 256, c.regs.eip / 256 % 256,
       c.regs.eip / 65536 % 256, c.regs.eip / 16777216 % 256, c.regs.cs % 256,
       c.regs.cs / 256 % 256, c.regs.cs / 65536 % 256, c.regs.cs / 16777216 % 256,
       c.regs.eflags % 256, c.regs.eflags / 256 % 256, c.regs.eflags / 65536 % 256,
       c.regs.eflags / 16777216 % 256] := by
  simp [frame_bytes, frame_fields, le_bytes, List.range_succ]

/-- The members of the frame `setup_task` builds, read back from the memory: each is at
its offset below the old stack pointer `T`, truncated to the width it is copied with. -/
theorem frame_reads (c : arch_tss_t) (ram : Nat → Nat) (T : Nat) (h : 58 ≤ T) :
    read32 (write_bytes ram (T - 58) (frame_bytes c frame_fields)) (T - 4) =
        c.regs.eflags % 2 ^ 32 ∧
      read32 (write_bytes ram (T - 58) (frame_bytes c frame_fields)) (T - 8) =
        c.regs.cs % 2 ^ 32 ∧
      read32 (write_bytes ram (T - 58) (frame_bytes c frame_fields)) (T - 12) =
        c.regs.eip % 2 ^ 32 ∧
      read32 (write_bytes ram (T - 58) (frame_bytes c frame_fields)) (T - 16) =
        c.regs.eax % 2 ^ 32 ∧
      read32 (write_bytes ram (T - 58) (frame_bytes c frame_fields)) (T - 20) =
        c.regs.ecx % 2 ^ 32 ∧
      read32 (write_bytes ram (T - 58) (frame_bytes c frame_fields)) (T - 24) =
        c.regs.edx % 2 ^ 32 ∧
      read32 (write_bytes ram (T - 58) (frame_bytes c frame_fields)) (T - 28) =
        c.regs.ebx % 2 ^ 32 ∧
      read32 (write_bytes ram (T - 58) (frame_bytes c frame_fields)) (T - 32) =
        c.regs.esp % 2 ^ 32 ∧
      read32 (write_bytes ram (T - 58) (frame_bytes c frame_fields)) (T - 36) =
        c.regs.ebp % 2 ^ 32 ∧
      read32 (write_bytes ram (T - 58) (frame_bytes c frame_fields)) (T - 40) =
        c.regs.esi % 2 ^ 32 ∧
      read32 (write_bytes ram (T - 58) (frame_bytes c frame_fields)) (T - 44) =
        c.regs.edi % 2 ^ 32 ∧
      read16 (write_bytes ram (T - 58) (frame_bytes c frame_fields)) (T - 46) =
        c.regs.ds % 2 ^ 16 ∧
      read16 (write_bytes ram (T - 58) (frame_bytes c frame_fields)) (T - 48) =
        c.regs.es % 2 ^ 16 ∧
      read16 (write_bytes ram (T - 58) (frame_bytes c frame_fields)) (T - 50) =
        c.regs.fs % 2 ^ 16 ∧
      read16 (write_bytes ram (T - 58) (frame_bytes c frame_fields)) (T - 52) =
        c.regs.gs % 2 ^ 16 ∧
      read16 (write_bytes ram (T - 58) (frame_bytes c frame_fields)) (T - 54) =
        c.regs.ss % 2 ^ 16 ∧
      read32 (write_bytes ram (T - 58) (frame_bytes c frame_fields)) (T - 58) =
        c.cr3 % 2 ^ 32 := by
  rw [frame_bytes_frame_fields]
  refine ⟨?_, ?_, ?_, ?_, ?_, ?_, ?_, ?_, ?_, ?_, ?_, ?_, ?_, ?_, ?_, ?_, ?_⟩
  · rw [show T - 4 = T - 58 + 54 by omega]
    exact read32_frame _ _ _ 54 (c.regs.eflags) (by simp) rfl rfl rfl rfl
  · rw [show T - 8 = T - 58 + 50 by omega]
    exact read32_frame _ _ _ 50 (c.regs.cs) (by simp) rfl rfl rfl rfl
  · rw [show T - 12 = T - 58 + 46 by omega]
    exact read32_frame _ _ _ 46 (c.regs.eip) (by simp) rfl rfl rfl rfl
  · rw [show T - 16 = T - 58 + 42 by omega]
    exact read32_frame _ _ _ 42 (c.regs.eax) (by simp) rfl rfl rfl rfl
  · rw [show T - 20 = T - 58 + 38 by omega]
    exact read32_frame _ _ _ 38 (c.regs.ecx) (by simp) rfl rfl rfl rfl
  · rw [show T - 24 = T - 58 + 34 by omega]
    exact read32_frame _ _ _ 34 (c.regs.edx) (by simp) rfl rfl rfl rfl
  · rw [show T - 28 = T - 58 + 30 by omega]
    exact read32_frame _ _ _ 30 (c.regs.ebx) (by simp) rfl rfl rfl rfl
  · rw [show T - 32 = T - 58 + 26 by omega]
    exact read32_frame _ _ _ 26 (c.regs.esp) (by simp) rfl rfl rfl rfl
  · rw [show T - 36 = T - 58 + 22 by omega]
    exact read32_frame _ _ _ 22 (c.regs.ebp) (by simp) rfl rfl rfl rfl
  · rw [show T - 40 = T - 58 + 18 by omega]
    exact read32_frame _ _ _ 18 (c.regs.esi) (by simp) rfl rfl rfl rfl
  · rw [show T - 44 = T - 58 + 14 by omega]
    exact read32_frame _ _ _ 14 (c.regs.edi) (by simp) rfl rfl rfl rfl
  · rw [show T - 46 = T - 58 + 12 by omega]
    exact read16_frame _ _ _ 12 (c.regs.ds) (by simp) rfl rfl
  · rw [show T - 48 = T - 58 + 10 by omega]
    exact read16_frame _ _ _ 10 (c.regs.es) (by simp) rfl rfl
  · rw [show T - 50 = T - 58 + 8 by omega]
    exact read16_frame _ _ _ 8 (c.regs.fs) (by simp) rfl rfl
  · rw [show T - 52 = T - 58 + 6 by omega]
    exact read16_frame _ _ _ 6 (c.regs.gs) (by simp) rfl rfl
  · rw [show T - 54 = T - 58 + 4 by omega]
    exact read16_frame _ _ _ 4 (c.regs.ss) (by simp) rfl rfl
  · rw [show T - 58 = T - 58 + 0 by omega]
    exact read32_frame _ _ _ 0 (c.cr3) (by simp) rfl rfl rfl rfl

/-- C4: for a non-null task with kernel-stack pointer `T` and an entry routine `E`,
`setup_task` writes, from `T` downward and with no gap, the flags at `T-4`, the code
selector at `T-8`, `E` at `T-12`, the registers eax, ecx, edx, ebx, esp, ebp, esi, edi as
32-bit words at `T-16` .. `T-44`, the selectors ds, es, fs, gs, ss as 16-bit values at
`T-46` .. `T-54` and the address-space root at `T-58`; the stores go, in this order, to
exactly the addresses `T-58` .. `T-1`, and no byte at or above `T` or below `T-58`
changes. -/
theorem setup_task_frame_layout (X : X86) (k : Kernel) (task E T : Nat) (h0 : task ≠ 0)
    (hT : (k.task_mem task).kstack = T) (hlo : 58 ≤ T) (hhi : T < 2 ^ 32) (hE : E < 2 ^ 32) :
    read32 (setup_task X k task E).ram (T - 4) =
        ((setup_task X k task E).task_mem task).arch_tss.regs.eflags ∧
      read32 (setup_task X k task E).ram (T - 8) =
        ((setup_task X k task E).task_mem task).arch_tss.regs.cs ∧
      read32 (setup_task X k task E).ram (T - 12) = E ∧
      read32 (setup_task X k task E).ram (T - 16) =
        (k.task_mem task).arch_tss.regs.eax % 2 ^ 32 ∧
      read32 (setup_task X k task E).ram (T - 20) =
        (k.task_mem task).arch_tss.regs.ecx % 2 ^ 32 ∧
      read32 (setup_task X k task E).ram (T - 24) =
        (k.task_mem task).arch_tss.regs.edx % 2 ^ 32 ∧
      read32 (setup_task X k task E).ram (T - 28) =
        (k.task_mem task).arch_tss.regs.ebx % 2 ^ 32 ∧
      read32 (setup_task X k task E).ram (T - 32) =
        (k.task_mem task).arch_tss.regs.esp % 2 ^ 32 ∧
      read32 (setup_task X k task E).ram (T - 36) =
        (k.task_mem task).arch_tss.regs.ebp % 2 ^ 32 ∧
      read32 (setup_task X k task E).ram (T - 40) =
        (k.task_mem task).arch_tss.regs.esi % 2 ^ 32 ∧
      read32 (setup_task X k task E).ram (T - 44) =
        (k.task_mem task).arch_tss.regs.edi % 2 ^ 32 ∧
      read16 (setup_task X k task E).ram (T - 46) =
        ((setup_task X k task E).task_mem task).arch_tss.regs.ds ∧
      read16 (setup_task X k task E).ram (T - 48) =
        ((setup_task X k task E).task_mem task).arch_tss.regs.es ∧
      read16 (setup_task X k task E).ram (T - 50) =
        ((setup_task X k task E).task_mem task).arch_tss.regs.fs ∧
      read16 (setup_task X k task E).ram (T - 52) =
        ((setup_task X k task E).task_mem task).arch_tss.regs.gs ∧
      read16 (setup_task X k task E).ram (T - 54) =
        ((setup_task X k task E).task_mem task).arch_tss.regs.ss ∧
      read32 (setup_task X k task E).ram (T - 58) =
        ((setup_task X k task E).task_mem task).arch_tss.cr3 ∧
      (∃ w, (setup_task X k task E).stores = k.stores ++ w ∧
        w = List.range' (T - 4) 4 ++ List.range' (T - 8) 4 ++ List.range' (T - 12) 4 ++
            List.range' (T - 16) 4 ++ List.range' (T - 20) 4 ++ List.range' (T - 24) 4 ++
            List.range' (T - 28) 4 ++ List.range' (T - 32) 4 ++ List.range' (T - 36) 4 ++
            List.range' (T - 40) 4 ++ List.range' (T - 44) 4 ++ List.range' (T - 46) 2 ++
            List.range' (T - 48) 2 ++ List.range' (T - 50) 2 ++ List.range' (T - 52) 2 ++
            List.range' (T - 54) 2 ++ List.range' (T - 58) 4 ∧
        ∀ a, a ∈ w ↔ T - 58 ≤ a ∧ a < T) ∧
      ∀ a, a < T - 58 ∨ T ≤ a → (setup_task X k task E).ram a = k.ram a := by
  obtain ⟨htask, hram, hstores⟩ :=
    setup_task_frame X k task E h0 (by rw [hT]; exact hlo) (by rw [hT]; exact hhi)
  rw [hT] at hram hstores
  obtain ⟨r1, r2, r3, r4, r5, r6, r7, r8, r9, r10, r11, r12, r13, r14, r15, r16, r17⟩ :=
    frame_reads (setup_context X (k.task_mem task).arch_tss E) k.ram T hlo
  rw [← hram] at r1 r2 r3 r4 r5 r6 r7 r8 r9 r10 r11 r12 r13 r14 r15 r16 r17
  refine ⟨?_, ?_, ?_, r4, r5, r6, r7, r8, r9, r10, r11, ?_, ?_, ?_, ?_, ?_, ?_, ?_, ?_⟩
  · rw [r1, htask]
    rfl
  · rw [r2, htask]
    exact Nat.mod_mod X.KERNEL_CS (2 ^ 32)
  · rw [r3]
    exact (Nat.mod_mod E (2 ^ 32)).trans (Nat.mod_eq_of_lt hE)
  · rw [r12, htask]
    exact Nat.mod_mod X.KERNEL_DS (2 ^ 16)
  · rw [r13, htask]
    exact Nat.mod_mod X.KERNEL_DS (2 ^ 16)
  · rw [r14, htask]
    exact Nat.mod_mod X.KERNEL_DS (2 ^ 16)
  · rw [r15, htask]
    exact Nat.mod_mod X.KERNEL_DS (2 ^ 16)
  · rw [r16, htask]
    exact Nat.mod_mod X.KERNEL_DS (2 ^ 16)
  · rw [r17, htask]
    exact Nat.mod_mod X.dir_phy_addr (2 ^ 32)
  · refine ⟨_, hstores, ?_, fun a => mem_frame_addrs frame_fields _ a hlo⟩
    simp only [frame_addrs, frame_fields, Nat.sub_sub, List.append_nil, List.append_assoc]
  · intro a ha
    rw [hram]
    exact write_bytes_out _ _ _ a (by rw [frame_bytes_frame_fields]; simp; omega)

/-- C4 at the three-task machine: the frame of the second task, whose stack pointer is
`0x2000`, for the entry routine `0x100000`. -/
theorem setup_task_frame_layout_witness :
    (200 ≠ 0 ∧ (kernel_demo.task_mem 200).kstack = 0x2000 ∧ 58 ≤ 0x2000 ∧ 0x2000 < 2 ^ 32 ∧
      0x100000 < 2 ^ 32) ∧
      (read32 (setup_task x86_demo kernel_demo 200 0x100000).ram (0x2000 - 4) =
        ((setup_task x86_demo kernel_demo 200 0x100000).task_mem 200).arch_tss.regs.eflags ∧
      read32 (setup_task x86_demo kernel_demo 200 0x100000).ram (0x2000 - 8) =
        ((setup_task x86_demo kernel_demo 200 0x100000).task_mem 200).arch_tss.regs.cs ∧
      read32 (setup_task x86_demo kernel_demo 200 0x100000).ram (0x2000 - 12) = 0x100000 ∧
      read32 (setup_task x86_demo kernel_demo 200 0x100000).ram (0x2000 - 16) =
        (kernel_demo.task_mem 200).arch_tss.regs.eax % 2 ^ 32 ∧
      read32 (setup_task x86_demo kernel_demo 200 0x100000).ram (0x2000 - 20) =
        (kernel_demo.task_mem 200).arch_tss.regs.ecx % 2 ^ 32 ∧
      read32 (setup_task x86_demo kernel_demo 200 0x100000).ram (0x2000 - 24) =
        (kernel_demo.task_mem 200).arch_tss.regs.edx % 2 ^ 32 ∧
      read32 (setup_task x86_demo kernel_demo 200 0x100000).ram (0x2000 - 28) =
        (kernel_demo.task_mem 200).arch_tss.regs.ebx % 2 ^ 32 ∧
      read32 (setup_task x86_demo kernel_demo 200 0x100000).ram (0x2000 - 32) =
        (kernel_demo.task_mem 200).arch_tss.regs.esp % 2 ^ 32 ∧
      read32 (setup_task x86_demo kernel_demo 200 0x100000).ram (0x2000 - 36) =
        (kernel_demo.task_mem 200).arch_tss.regs.ebp % 2 ^ 32 ∧
      read32 (setup_task x86_demo kernel_demo 200 0x100000).ram (0x2000 - 40) =
        (kernel_demo.task_mem 200).arch_tss.regs.esi % 2 ^ 32 ∧
      read32 (setup_task x86_demo kernel_demo 200 0x100000).ram (0x2000 - 44) =
        (kernel_demo.task_mem 200).arch_tss.regs.edi % 2 ^ 32 ∧
      read16 (setup_task x86_demo kernel_demo 200 0x100000).ram (0x2000 - 46) =
        ((setup_task x86_demo kernel_demo 200 0x100000).task_mem 200).arch_tss.regs.ds ∧
      read16 (setup_task x86_demo kernel_demo 200 0x100000).ram (0x2000 - 48) =
        ((setup_task x86_demo kernel_demo 200 0x100000).task_mem 200).arch_tss.regs.es ∧
      read16 (setup_task x86_demo kernel_demo 200 0x100000).ram (0x2000 - 50) =
        ((setup_task x86_demo kernel_demo 200 0x100000).task_mem 200).arch_tss.regs.fs ∧
      read16 (setup_task x86_demo kernel_demo 200 0x100000).ram (0x2000 - 52) =
        ((setup_task x86_demo kernel_demo 200 0x100000).task_mem 200).arch_tss.regs.gs ∧
      read16 (setup_task x86_demo kernel_demo 200 0x100000).ram (0x2000 - 54) =
        ((setup_task x86_demo kernel_demo 200 0x100000).task_mem 200).arch_tss.regs.ss ∧
      read32 (setup_task x86_demo kernel_demo 200 0x100000).ram (0x2000 - 58) =
        ((setup_task x86_demo kernel_demo 200 0x100000).task_mem 200).arch_tss.cr3 ∧
      (∃ w, (setup_task x86_demo kernel_demo 200 0x100000).stores = kernel_demo.stores ++ w ∧
        w = List.range' (0x2000 - 4) 4 ++ List.range' (0x2000 - 8) 4 ++ List.range' (0x2000 - 12) 4 ++
            List.range' (0x2000 - 16) 4 ++ List.range' (0x2000 - 20) 4 ++ List.range' (0x2000 - 24) 4 ++
            List.range' (0x2000 - 28) 4 ++ List.range' (0x2000 - 32) 4 ++ List.range' (0x2000 - 36) 4 ++
            List.range' (0x2000 - 40) 4 ++ List.range' (0x2000 - 44) 4 ++ List.range' (0x2000 - 46) 2 ++
            List.range' (0x2000 - 48) 2 ++ List.range' (0x2000 - 50) 2 ++ List.range' (0x2000 - 52) 2 ++
            List.range' (0x2000 - 54) 2 ++ List.range' (0x2000 - 58) 4 ∧
        ∀ a, a ∈ w ↔ 0x2000 - 58 ≤ a ∧ a < 0x2000) ∧
      ∀ a, a < 0x2000 - 58 ∨ 0x2000 ≤ a → (setup_task x86_demo kernel_demo 200 0x100000).ram a = kernel_demo.ram a) :=
  ⟨⟨by decide, by decide, by decide, by decide, by decide⟩,
    setup_task_frame_layout x86_demo kernel_demo 200 0x100000 0x2000 (by decide) (by decide)
      (by decide) (by decide) (by decide)⟩

/-- C5, the code at the three-task machine: `setup_task` on the second task (stack pointer
`0x2000`) stores the flags value `0x2020000` in the Architecture Context and at the top of
the resume frame, and bit 9 (`EFLAGS_IF`, mask `0x200`) of that value is clear. -/
theorem setup_task_flags_if_clear :
    ((setup_task x86_demo kernel_demo 200 0x100000).task_mem 200).arch_tss.regs.eflags
        = 0x2020000 ∧
      read32 (setup_task x86_demo kernel_demo 200 0x100000).ram (0x2000 - 4) = 0x2020000 ∧
      0x2020000 &&& EFLAGS_IF = 0 := by
  obtain ⟨htask, hram, _⟩ :=
    setup_task_frame x86_demo kernel_demo 200 0x100000 (by decide) (by decide) (by decide)
  have r := (frame_reads (setup_context x86_demo (kernel_demo.task_mem 200).arch_tss 0x100000)
    kernel_demo.ram 0x2000 (by decide)).1
  refine ⟨?_, ?_, by decide⟩
  · rw [htask]
    rfl
  · rw [hram]
    exact r

/-- C6: for a non-null task with kernel-stack pointer `T`, after `setup_task` the context's
stack pointer is the task's updated kernel-stack pointer, which is `T` minus the 58 bytes
of the frame (eleven 32-bit words, five 16-bit selectors, one 32-bit address-space root);
that address holds the address-space root, the last thing stored; the context's `cr3` is
the kernel page directory's physical address, `ds`, `es`, `fs`, `gs`, `ss` are `KERNEL_DS`
and `cs` is `KERNEL_CS`. -/
theorem setup_task_context (X : X86) (k : Kernel) (task E T : Nat) (h0 : task ≠ 0)
    (hT : (k.task_mem task).kstack = T) (hlo : 58 ≤ T) (hhi : T < 2 ^ 32)
    (hcs : X.KERNEL_CS < 2 ^ 16) (hds : X.KERNEL_DS < 2 ^ 16)
    (hdir : X.dir_phy_addr < 2 ^ 32) :
    ((setup_task X k task E).task_mem task).arch_tss.regs.esp =
        ((setup_task X k task E).task_mem task).kstack ∧
      ((setup_task X k task E).task_mem task).kstack = T - (11 * 4 + 5 * 2 + 4) ∧
      ((setup_task X k task E).task_mem task).kstack = T - 58 ∧
      read32 (setup_task X k task E).ram
          ((setup_task X k task E).task_mem task).arch_tss.regs.esp =
        ((setup_task X k task E).task_mem task).arch_tss.cr3 ∧
      (∃ w, (setup_task X k task E).stores =
        w ++ List.range' ((setup_task X k task E).task_mem task).arch_tss.regs.esp 4) ∧
      ((setup_task X k task E).task_mem task).arch_tss.cr3 = X.dir_phy_addr ∧
      ((setup_task X k task E).task_mem task).arch_tss.regs.ds = X.KERNEL_DS ∧
      ((setup_task X k task E).task_mem task).arch_tss.regs.es = X.KERNEL_DS ∧
      ((setup_task X k task E).task_mem task).arch_tss.regs.fs = X.KERNEL_DS ∧
      ((setup_task X k task E).task_mem task).arch_tss.regs.gs = X.KERNEL_DS ∧
      ((setup_task X k task E).task_mem task).arch_tss.regs.ss = X.KERNEL_DS ∧
      ((setup_task X k task E).task_mem task).arch_tss.regs.cs = X.KERNEL_CS := by
  obtain ⟨htask, hram, hstores⟩ :=
    setup_task_frame X k task E h0 (by rw [hT]; exact hlo) (by rw [hT]; exact hhi)
  rw [hT] at htask hram hstores
  have r := (frame_reads (setup_context X (k.task_mem task).arch_tss E) k.ram T
    hlo).2.2.2.2.2.2.2.2.2.2.2.2.2.2.2.2
  rw [← hram] at r
  have hds' : X.KERNEL_DS % 2 ^ 16 = X.KERNEL_DS := Nat.mod_eq_of_lt hds
  have hcs' : X.KERNEL_CS % 2 ^ 32 = X.KERNEL_CS := Nat.mod_eq_of_lt (by omega)
  have hdir' : X.dir_phy_addr % 2 ^ 32 = X.dir_phy_addr := Nat.mod_eq_of_lt hdir
  rw [htask]
  refine ⟨rfl, rfl, rfl, ?_, ?_, hdir', hds', hds', hds', hds', hds', hcs'⟩
  · exact r.trans (Nat.mod_mod X.dir_phy_addr (2 ^ 32))
  · refine ⟨k.stores ++ frame_addrs T (frame_fields.take 16), ?_⟩
    rw [hstores]
    simp only [frame_addrs, frame_fields, List.take, Nat.sub_sub, List.append_nil,
      List.append_assoc]

/-- C6 at the three-task machine: the context of the second task after `setup_task`. -/
theorem setup_task_context_witness :
    (200 ≠ 0 ∧ (kernel_demo.task_mem 200).kstack = 0x2000 ∧ 58 ≤ 0x2000 ∧ 0x2000 < 2 ^ 32 ∧
      x86_demo.KERNEL_CS < 2 ^ 16 ∧ x86_demo.KERNEL_DS < 2 ^ 16 ∧
      x86_demo.dir_phy_addr < 2 ^ 32) ∧
      ((setup_task x86_demo kernel_demo 200 0x100000).task_mem 200).arch_tss.regs.esp
        = 0x2000 - 58 ∧
      ((setup_task x86_demo kernel_demo 200 0x100000).task_mem 200).kstack = 0x2000 - 58 ∧
      ((setup_task x86_demo kernel_demo 200 0x100000).task_mem 200).arch_tss.cr3 = 0x9000 ∧
      ((setup_task x86_demo kernel_demo 200 0x100000).task_mem 200).arch_tss.regs.ds = 0x10 ∧
      ((setup_task x86_demo kernel_demo 200 0x100000).task_mem 200).arch_tss.regs.cs = 0x08 := by
  have h := setup_task_context x86_demo kernel_demo 200 0x100000 0x2000 (by decide) (by decide)
    (by decide) (by decide) (by decide) (by decide) (by decide)
  exact ⟨⟨by decide, by decide, by decide, by decide, by decide, by decide, by decide⟩,
    h.1.trans h.2.2.1, h.2.2.1, h.2.2.2.2.2.1, h.2.2.2.2.2.2.1, h.2.2.2.2.2.2.2.2.2.2.2⟩

/-! ## The bootstrap task -/

/-- C7, the code: with `kmalloc` returning NULL on the empty machine, `arch_init_scheduler`
records no `panic`. -/
theorem arch_init_scheduler_null_no_panic :
    ¬ ∃ msg, Call.panic msg ∈
      (arch_init_scheduler x86_demo kernel_empty 0x100000 0 1 0x8000 0x2).calls := by
  rintro ⟨msg, h⟩
  simp [arch_init_scheduler, kernel_empty] at h

/-- C7 as amended: when `kmalloc` returns NULL, `arch_init_scheduler` returns to its caller
without a `panic` or any other outside call (so without `initial_task`); it creates no
task and leaves the Task Ring (list head and list nodes), the cursor, the task structures
and the globals of `task.c` unchanged. What the failed `kmalloc` did to the allocator's
memory map is not part of the statement. -/
theorem arch_init_scheduler_null_returns (X : X86) (k : Kernel)
    (start_routine node esp eflags : Nat) :
    (arch_init_scheduler X k start_routine 0 node esp eflags).calls = k.calls ∧
      (arch_init_scheduler X k start_routine 0 node esp eflags).tasks = k.tasks ∧
      (arch_init_scheduler X k start_routine 0 node esp eflags).list_mem = k.list_mem ∧
      (arch_init_scheduler X k start_routine 0 node esp eflags).cur_task = k.cur_task ∧
      (arch_init_scheduler X k start_routine 0 node esp eflags).task_mem = k.task_mem ∧
      (arch_init_scheduler X k start_routine 0 node esp eflags).arch_tss_cur_task =
        k.arch_tss_cur_task ∧
      (arch_init_scheduler X k start_routine 0 node esp eflags).task = k.task ∧
      (arch_init_scheduler X k start_routine 0 node esp eflags).current_task =
        k.current_task := by
  have h : arch_init_scheduler X k start_routine 0 node esp eflags = k := by
    simp [arch_init_scheduler]
  rw [h]
  exact ⟨rfl, rfl, rfl, rfl, rfl, rfl, rfl, rfl⟩

/-- The task structure `arch_init_scheduler` leaves at the address `kmalloc` returned. -/
theorem arch_init_scheduler_task (X : X86) (k : Kernel) (E newth node S F : Nat)
    (hnew : newth ≠ 0) :
    (arch_init_scheduler X k E newth node S F).task_mem newth =
      { k.task_mem newth with
        state := TASK_RUNNING
        priority := DEFAULT_PRIORITY
        pid := KERNEL_PID
        return_code := 0
        wait_queue := 0
        kstack := S
        arch_tss :=
          { regs :=
              { (k.task_mem newth).arch_tss.regs with
                eip := E % 2 ^ 32
                ds := X.KERNEL_DS % 2 ^ 16
                fs := X.KERNEL_DS % 2 ^ 16
                gs := X.KERNEL_DS % 2 ^ 16
                ss := X.KERNEL_DS % 2 ^ 16
                es := X.KERNEL_DS % 2 ^ 16
                esp := S % 2 ^ 32
                cs := X.KERNEL_CS % 2 ^ 32
                eflags := (F ||| EFLAGS_IF) % 2 ^ 32 }
            cr3 := X.dir_phy_addr % 2 ^ 32 } } := by
  unfold arch_init_scheduler
  rw [if_neg hnew]
  simp only [upd_regs, upd_task_upd_task]
  show (c_llist_add _ node newth).task_mem newth = _
  have : ∀ (k : Kernel), (c_llist_add k node newth).task_mem = k.task_mem := by
    intro k
    unfold c_llist_add
    split
    · rfl
    · split <;> rfl
  rw [this]
  simp [upd_task]

/-- The list, the bytes and the log `arch_init_scheduler` leaves when the ring was empty. -/
theorem arch_init_scheduler_ring (X : X86) (k : Kernel) (E newth node S F : Nat)
    (hnew : newth ≠ 0) (hnode : node ≠ 0) (hempty : k.tasks = 0) :
    (arch_init_scheduler X k E newth node S F).tasks = node ∧
      (arch_init_scheduler X k E newth node S F).cur_task = node ∧
      ((arch_init_scheduler X k E newth node S F).list_mem node).element = newth ∧
      (arch_init_scheduler X k E newth node S F).ram = k.ram ∧
      (arch_init_scheduler X k E newth node S F).stores = k.stores ∧
      (arch_init_scheduler X k E newth node S F).calls =
        k.calls ++ [Call.initial_task newth] := by
  unfold arch_init_scheduler
  rw [if_neg hnew]
  simp only [upd_regs, upd_task_upd_task]
  simp [c_llist_add, upd_task, initial_task, hnode, hempty]

/-- C8: when `kmalloc` and the list insertion obtain storage and the ring is empty,
`arch_init_scheduler` leaves a non-empty ring whose cursor designates the new task; the
task is Running with pid `KERNEL_PID`, priority `DEFAULT_PRIORITY`, return code 0, kernel
stack and context stack pointer `S`, instruction pointer `E`, flags `F | EFLAGS_IF` (bit 9
set) and address-space root the kernel page directory's physical address; no byte is
stored, and the one outside call is `initial_task` on the new task. -/
theorem arch_init_scheduler_bootstrap (X : X86) (k : Kernel) (E newth node S F : Nat)
    (hnew : newth ≠ 0) (hnode : node ≠ 0) (hempty : k.tasks = 0)
    (hE : E < 2 ^ 32) (hS : S < 2 ^ 32) (hF : F < 2 ^ 32) (hdir : X.dir_phy_addr < 2 ^ 32) :
    (arch_init_scheduler X k E newth node S F).tasks ≠ 0 ∧
      (arch_init_scheduler X k E newth node S F).cur_task = (arch_init_scheduler X k E newth node S F).tasks ∧
      GET_TASK (arch_init_scheduler X k E newth node S F) (arch_init_scheduler X k E newth node S F).cur_task = newth ∧
      ((arch_init_scheduler X k E newth node S F).task_mem newth).state = TASK_RUNNING ∧
      ((arch_init_scheduler X k E newth node S F).task_mem newth).pid = KERNEL_PID ∧
      ((arch_init_scheduler X k E newth node S F).task_mem newth).priority = DEFAULT_PRIORITY ∧
      ((arch_init_scheduler X k E newth node S F).task_mem newth).return_code = 0 ∧
      ((arch_init_scheduler X k E newth node S F).task_mem newth).kstack = S ∧
      ((arch_init_scheduler X k E newth node S F).task_mem newth).arch_tss.regs.esp = S ∧
      ((arch_init_scheduler X k E newth node S F).task_mem newth).arch_tss.regs.eip = E ∧
      ((arch_init_scheduler X k E newth node S F).task_mem newth).arch_tss.regs.eflags = F ||| EFLAGS_IF ∧
      (((arch_init_scheduler X k E newth node S F).task_mem newth).arch_tss.regs.eflags).testBit 9 = true ∧
      ((arch_init_scheduler X k E newth node S F).task_mem newth).arch_tss.cr3 = X.dir_phy_addr ∧
      (arch_init_scheduler X k E newth node S F).ram = k.ram ∧
      (arch_init_scheduler X k E newth node S F).stores = k.stores ∧
      (arch_init_scheduler X k E newth node S F).calls = k.calls ++ [Call.initial_task newth] := by
  obtain ⟨r1, r2, r3, r4, r5, r6⟩ :=
    arch_init_scheduler_ring X k E newth node S F hnew hnode hempty
  have ht := arch_init_scheduler_task X k E newth node S F hnew
  have hfl : (F ||| EFLAGS_IF) % 2 ^ 32 = F ||| EFLAGS_IF :=
    Nat.mod_eq_of_lt (Nat.or_lt_two_pow hF (by decide))
  refine ⟨?_, ?_, ?_, ?_, ?_, ?_, ?_, ?_, ?_, ?_, ?_, ?_, ?_, r4, r5, r6⟩
  · rw [r1]
    exact hnode
  · rw [r1, r2]
  · rw [GET_TASK, r2, if_neg hnode, r3]
  · rw [ht]
  · rw [ht]
  · rw [ht]
  · rw [ht]
  · rw [ht]
  · rw [ht]
    exact Nat.mod_eq_of_lt hS
  · rw [ht]
    exact Nat.mod_eq_of_lt hE
  · rw [ht]
    exact hfl
  · rw [ht]
    show ((F ||| EFLAGS_IF) % 2 ^ 32).testBit 9 = true
    rw [hfl, Nat.testBit_or]
    have : EFLAGS_IF.testBit 9 = true := by decide
    rw [this, Bool.or_true]
  · rw [ht]
    exact Nat.mod_eq_of_lt hdir

/-- C8 on the empty machine: the bootstrap task at address 100, held by node 1, with
captured stack pointer `0x8000` and captured flags `0x2`. -/
theorem arch_init_scheduler_bootstrap_witness :
    (100 ≠ 0 ∧ 1 ≠ 0 ∧ kernel_empty.tasks = 0 ∧ 0x100000 < 2 ^ 32 ∧ 0x8000 < 2 ^ 32 ∧
      0x2 < 2 ^ 32 ∧ x86_demo.dir_phy_addr < 2 ^ 32) ∧
      ((arch_init_scheduler x86_demo kernel_empty 0x100000 100 1 0x8000 0x2).tasks ≠ 0 ∧
      (arch_init_scheduler x86_demo kernel_empty 0x100000 100 1 0x8000 0x2).cur_task = (arch_init_scheduler x86_demo kernel_empty 0x100000 100 1 0x8000 0x2).tasks ∧
      GET_TASK (arch_init_scheduler x86_demo kernel_empty 0x100000 100 1 0x8000 0x2) (arch_init_scheduler x86_demo kernel_empty 0x100000 100 1 0x8000 0x2).cur_task = 100 ∧
      ((arch_init_scheduler x86_demo kernel_empty 0x100000 100 1 0x8000 0x2).task_mem 100).state = TASK_RUNNING ∧
      ((arch_init_scheduler x86_demo kernel_empty 0x100000 100 1 0x8000 0x2).task_mem 100).pid = KERNEL_PID ∧
      ((arch_init_scheduler x86_demo kernel_empty 0x100000 100 1 0x8000 0x2).task_mem 100).priority = DEFAULT_PRIORITY ∧
      ((arch_init_scheduler x86_demo kernel_empty 0x100000 100 1 0x8000 0x2).task_mem 100).return_code = 0 ∧
      ((arch_init_scheduler x86_demo kernel_empty 0x100000 100 1 0x8000 0x2).task_mem 100).kstack = 0x8000 ∧
      ((arch_init_scheduler x86_demo kernel_empty 0x100000 100 1 0x8000 0x2).task_mem 100).arch_tss.regs.esp = 0x8000 ∧
      ((arch_init_scheduler x86_demo kernel_empty 0x100000 100 1 0x8000 0x2).task_mem 100).arch_tss.regs.eip = 0x100000 ∧
      ((arch_init_scheduler x86_demo kernel_empty 0x100000 100 1 0x8000 0x2).task_mem 100).arch_tss.regs.eflags = 0x2 ||| EFLAGS_IF ∧
      (((arch_init_scheduler x86_demo kernel_empty 0x100000 100 1 0x8000 0x2).task_mem 100).arch_tss.regs.eflags).testBit 9 = true ∧
      ((arch_init_scheduler x86_demo kernel_empty 0x100000 100 1 0x8000 0x2).task_mem 100).arch_tss.cr3 = x86_demo.dir_phy_addr ∧
      (arch_init_scheduler x86_demo kernel_empty 0x100000 100 1 0x8000 0x2).ram = kernel_empty.ram ∧
      (arch_init_scheduler x86_demo kernel_empty 0x100000 100 1 0x8000 0x2).stores = kernel_empty.stores ∧
      (arch_init_scheduler x86_demo kernel_empty 0x100000 100 1 0x8000 0x2).calls = kernel_empty.calls ++ [Call.initial_task 100]) :=
  ⟨⟨by decide, by decide, by decide, by decide, by decide, by decide, by decide⟩,
    arch_init_scheduler_bootstrap x86_demo kernel_empty 0x100000 100 1 0x8000 0x2
      (by decide) (by decide) (by decide) (by decide) (by decide) (by decide) (by decide)⟩

/-! ## The scheduler alarm -/

/-- C9, the code at the three-task machine: the first task is Running under the cursor
(node 1), the next ring entry (node 2) holds a ReadyToRun task; one `schedule` that gets
its alarm leaves the cursor on node 1, the first task Running and the second ReadyToRun,
and its only outside call is `new_alarm`: no `task_switch_to` takes place. -/
theorem schedule_does_not_switch :
    (kernel_demo.list_mem kernel_demo.cur_task).next = 2 ∧
      (kernel_demo.task_mem (GET_TASK kernel_demo 2)).state = TASK_READY_TO_RUN ∧
      (schedule "" kernel_demo 0 true).cur_task = 1 ∧
      (schedule "" kernel_demo 0 true).cur_task ≠ 2 ∧
      ((schedule "" kernel_demo 0 true).task_mem 100).state = TASK_RUNNING ∧
      ((schedule "" kernel_demo 0 true).task_mem 200).state = TASK_READY_TO_RUN ∧
      (schedule "" kernel_demo 0 true).calls = [Call.new_alarm 107 KFun.schedule 0] := by
  refine ⟨by decide, by decide, by decide, by decide, by decide, by decide, ?_⟩
  simp [schedule, new_alarm, kernel_demo, kernel_empty]

/-- C10: `init_scheduler` requests exactly one alarm, for `jiffies + scheduler_quantum`
(32-bit) with handler `schedule` and argument 0, and `schedule(p)` exactly one, for the
same deadline with handler `schedule` and argument `p`; each of them goes on to `panic`
exactly when `new_alarm` returned false, and makes no other outside call. -/
theorem scheduler_alarm (KERN_CRIT : String) (k : Kernel) (p : Int) (alarm_ok : Bool) :
    (init_scheduler KERN_CRIT k alarm_ok).calls =
        k.calls ++
          Call.new_alarm ((k.jiffies + k.scheduler_quantum) % 2 ^ 32) KFun.schedule 0 ::
            (if alarm_ok then []
              else [Call.panic (KERN_CRIT ++ "Could not install scheduler alarm.")]) ∧
      (schedule KERN_CRIT k p alarm_ok).calls =
        k.calls ++
          Call.new_alarm ((k.jiffies + k.scheduler_quantum) % 2 ^ 32) KFun.schedule p ::
            (if alarm_ok then []
              else [Call.panic (KERN_CRIT ++ "Could not install scheduler alarm.")]) ∧
      ((∃ msg, (init_scheduler KERN_CRIT k alarm_ok).calls =
          k.calls ++
            [Call.new_alarm ((k.jiffies + k.scheduler_quantum) % 2 ^ 32) KFun.schedule 0,
              Call.panic msg]) ↔ alarm_ok = false) ∧
      ((∃ msg, (schedule KERN_CRIT k p alarm_ok).calls =
          k.calls ++
            [Call.new_alarm ((k.jiffies + k.scheduler_quantum) % 2 ^ 32) KFun.schedule p,
              Call.panic msg]) ↔ alarm_ok = false) ∧
      (init_scheduler KERN_CRIT k alarm_ok).toGlobals = k.toGlobals ∧
      (schedule KERN_CRIT k p alarm_ok).toGlobals = k.toGlobals := by
  cases alarm_ok <;>
    simp [init_scheduler, schedule, new_alarm, panic]

/-! ## The page allocator -/

/-- The loop of `kfree` never ends when the first page of the region is entry 0 of its page
table: `dpages >= 0` holds for every unsigned `dpages`. -/
theorem kfree_loop_never_ends (initial_addr : Nat) :
    ∀ (fuel : Nat) (s : FreeSt), kfree_loop initial_addr 0 fuel s = none := by
  intro fuel
  induction fuel with
  | zero =>
    intro s
    rfl
  | succ fuel ih =>
    intro s
    unfold kfree_loop
    rw [if_pos (Nat.zero_le _)]
    by_cases hi : s.i > 0
    · simp only [hi, if_true]
      exact ih _
    · simp only [hi, if_false]
      exact ih _

/-- The function `kfree` never returns when the recorded first page is entry 0 of its page
table. -/
theorem kfree_never_ends (c : MM) (h : Heap) (ptr : Nat)
    (hff : ((h.regions ((ptr + 2 ^ 32 - c.sizeof_mregion % 2 ^ 32) % 2 ^ 32)).initial_addr
      + 2 ^ 32 - (c.TABLE_SIZE *
        ((h.regions ((ptr + 2 ^ 32 - c.sizeof_mregion % 2 ^ 32) % 2 ^ 32)).initial_addr
          / 2 ^ c.TABLE_SHIFT)) % 2 ^ 32) % 2 ^ 32 = 0) :
    ∀ fuel, kfree c fuel h ptr = none := by
  intro fuel
  unfold kfree
  simp only [hff]
  rw [kfree_loop_never_ends]

/-- C11, the code on two memory maps of 32 pages, for `kmalloc(100, 0)` with a page
allocator that never fails. With every page free the call returns the non-NULL pointer
12 and records a region of 1 page from page 0, but turns on the bits of pages 0 and 1, and
the `kfree` of that pointer never ends. With page 0 in use it returns `4096 + 12` for a
region of 1 page from page 1 and turns on the bits of pages 1 and 2; the `kfree` of that
pointer ends, having turned off the bit of page 2 only, so the bit of page 1, off before
the allocation, stays on. -/
theorem kmalloc_kfree_not_inverse :
    (∃ h1 : Heap,
      kmalloc mm_demo alloc_page_demo heap_free 0x500 100 0 = some (h1, 12) ∧
      (h1.regions 0).initial_addr = 0 ∧ (h1.regions 0).size = 1 ∧
      (h1.maps 0x500).bitmap 0 = true ∧ (h1.maps 0x500).bitmap 1 = true ∧
      ∀ fuel, kfree mm_demo fuel h1 12 = none) ∧
    (∃ h2 h3 : Heap,
      kmalloc mm_demo alloc_page_demo heap_page0 0x500 100 0 = some (h2, 4096 + 12) ∧
      (h2.regions 4096).initial_addr = 1 ∧ (h2.regions 4096).size = 1 ∧
      (heap_page0.maps 0x500).bitmap 1 = false ∧ (heap_page0.maps 0x500).bitmap 2 = false ∧
      (h2.maps 0x500).bitmap 1 = true ∧ (h2.maps 0x500).bitmap 2 = true ∧
      kfree mm_demo 2 h2 (4096 + 12) = some h3 ∧
      (h3.maps 0x500).bitmap 1 = true ∧ (h3.maps 0x500).bitmap 2 = false) := by
  refine ⟨⟨_, rfl, by decide, by decide, by decide, by decide, ?_⟩,
    ⟨_, _, rfl, by decide, by decide, by decide, by decide, by decide, by decide, rfl,
      by decide, by decide⟩⟩
  exact kfree_never_ends mm_demo _ 12 rfl

/-! ## The ext2 driver -/

/-- C12: for 32-bit `a` and `b` with `b > 0`, `div_rup(a, b)` is the least `q` with
`q * b >= a`, that is `a / b` rounded up; the product `res * b` it forms and the
incremented result stay below `2 ^ 32`. -/
theorem div_rup_is_ceil (a b : Nat) (ha : a < 2 ^ 32) (hb0 : 0 < b) (hb : b < 2 ^ 32) :
    ∃ q, div_rup a b = some q ∧ a ≤ q * b ∧ (∀ q', a ≤ q' * b → q ≤ q') ∧
      q = (a + b - 1) / b ∧ a / b * b < 2 ^ 32 ∧ q < 2 ^ 32 := by
  have hle : a / b * b ≤ a := Nat.div_mul_le_self a b
  have hlt : a < (a / b + 1) * b := by
    rw [Nat.mul_comm]
    exact Nat.lt_mul_div_succ a hb0
  have hmod : (a / b * b) % 2 ^ 32 = a / b * b := Nat.mod_eq_of_lt (by omega)
  have e1 : (a / b + 1) * b = a / b * b + b := by rw [Nat.add_mul, Nat.one_mul]
  have hdiv : a / b ≤ a := Nat.div_le_self a b
  unfold div_rup
  rw [if_neg (by omega)]
  simp only [hmod]
  by_cases h : a / b * b < a
  · rw [if_pos h]
    have hb2 : 2 ≤ b := by
      rcases Nat.lt_or_ge b 2 with h1 | h2
      · have : b = 1 := by omega
        subst this
        simp at h
      · exact h2
    have hhalf : a / b ≤ a / 2 := Nat.div_le_div_left hb2 (by decide)
    have hq : (a / b + 1) % 2 ^ 32 = a / b + 1 := Nat.mod_eq_of_lt (by omega)
    refine ⟨a / b + 1, by rw [hq], le_of_lt hlt, ?_, ?_, by omega, by omega⟩
    · intro q' hq'
      by_contra hcon
      have : q' ≤ a / b := by omega
      have := Nat.mul_le_mul_right b this
      omega
    · symm
      apply Nat.div_eq_of_lt_le
      · rw [e1]
        omega
      · rw [Nat.add_mul, Nat.one_mul, e1]
        omega
  · rw [if_neg h]
    have heq : a / b * b = a := by omega
    refine ⟨a / b, rfl, by omega, ?_, ?_, by omega, by omega⟩
    · intro q' hq'
      rw [← heq] at hq'
      exact Nat.le_of_mul_le_mul_right hq' hb0
    · symm
      apply Nat.div_eq_of_lt_le
      · omega
      · rw [e1]
        omega

/-- C12 for `div_rup(10, 4)`. -/
theorem div_rup_is_ceil_witness :
    (10 < 2 ^ 32 ∧ 0 < 4 ∧ 4 < 2 ^ 32) ∧
      ∃ q, div_rup 10 4 = some q ∧ 10 ≤ q * 4 ∧ (∀ q', 10 ≤ q' * 4 → q ≤ q') ∧
        q = (10 + 4 - 1) / 4 ∧ 10 / 4 * 4 < 2 ^ 32 ∧ q < 2 ^ 32 :=
  ⟨⟨by decide, by decide, by decide⟩,
    div_rup_is_ceil 10 4 (by decide) (by decide) (by decide)⟩

/-- The number 6 is not a power of 3, 5 or 7. -/
theorem six_not_power : ¬ ∃ k : Nat, 6 = 3 ^ k ∨ 6 = 5 ^ k ∨ 6 = 7 ^ k := by
  rintro ⟨k, h⟩
  rcases k with _ | _ | k
  · simp at h
  · simp at h
  · have h3 : 9 ≤ 3 ^ (k + 2) := by
      calc 9 = 3 ^ 2 := by norm_num
        _ ≤ 3 ^ (k + 2) := Nat.pow_le_pow_right (by decide) (by omega)
    have h5 : 25 ≤ 5 ^ (k + 2) := by
      calc 25 = 5 ^ 2 := by norm_num
        _ ≤ 5 ^ (k + 2) := Nat.pow_le_pow_right (by decide) (by omega)
    have h7 : 49 ≤ 7 ^ (k + 2) := by
      calc 49 = 7 ^ 2 := by norm_num
        _ ≤ 7 ^ (k + 2) := Nat.pow_le_pow_right (by decide) (by omega)
    omega

/-- C13, the code on a revision 1 file system with 8 i-nodes and 100 blocks per group and
the i-node table of group 0 at block 5: i-node 49 is in group 6, and on the way there the
loop subtracts 2 blocks for the groups 2 and 4 only. Group 6, which is not a power of 3, 5
or 7, is treated like the groups 1, 3 and 5, so the table block comes out as 601 where the
rule of the comment (groups 2, 4 and 6 without a backup) gives 599. -/
theorem ext2_backup_groups_are_multiples :
    backup_group 6 = true ∧ (¬ ∃ k : Nat, 6 = 3 ^ k ∨ 6 = 5 ^ k ∨ 6 = 7 ^ k) ∧
      (List.range' 1 6).filter (fun i => !backup_group i) = [2, 4] ∧
      ∃ loc, ext2_get_inode ext2_demo sb_rev1 { bg_inode_table := 5 } 49 = some loc ∧
        loc.grp_number = 6 ∧ loc.grp_block = 601 ∧ 5 + 6 * 100 - 2 * 3 = 599 := by
  refine ⟨by decide, six_not_power, by decide, _, rfl, by decide, by decide, by decide⟩

/-- The block size is one of the three ext2 block sizes. -/
theorem get_block_size_cases (c : Ext2) (sb : ext2_superblock_t) :
    get_block_size c sb = 1024 ∨ get_block_size c sb = 2048 ∨ get_block_size c sb = 4096 := by
  unfold get_block_size
  split
  · exact Or.inr (Or.inl rfl)
  · split
    · exact Or.inr (Or.inr rfl)
    · exact Or.inl rfl

/-- C14, the code on a revision 0 file system with 100 i-nodes per group, 1024-byte
blocks and the i-node table at block `0x3FFFFF`, for i-node 9: the group is 0, the local
index 9, and none of the products overflows, but the 32-bit sum
`grp_block * 1024 + 8 * 128` wraps to 0, so sector 0 and offset 0 come out and
`sector * 512 + offset` is not `grp_block * block_size + (k - 1) * sizeof(ext2_inode_t)`.
With `s_inodes_per_group` zero the division has no result at all. -/
theorem ext2_get_inode_sum_wraps :
    (∃ loc, ext2_get_inode ext2_demo sb_rev0 { bg_inode_table := 0x3FFFFF } 9 = some loc ∧
      loc.grp_number = 0 ∧ loc.number = 9 ∧
      sb_rev0.s_blocks_per_group * loc.grp_number < 2 ^ 32 ∧
      loc.grp_number * sb_rev0.s_inodes_per_group < 2 ^ 32 ∧
      loc.grp_block * get_block_size ext2_demo sb_rev0 < 2 ^ 32 ∧
      (loc.number - 1) * ext2_demo.sizeof_ext2_inode_t < 2 ^ 32 ∧
      loc.itab_addr = 0 ∧ loc.iblk_addr = 0 ∧
      loc.itab_addr * 512 + loc.iblk_addr ≠
        loc.grp_block * get_block_size ext2_demo sb_rev0 +
          (loc.number - 1) * ext2_demo.sizeof_ext2_inode_t) ∧
      ext2_get_inode ext2_demo { sb_rev0 with s_inodes_per_group := 0 }
        { bg_inode_table := 0x3FFFFF } 9 = none := by
  refine ⟨⟨_, rfl, by decide, by decide, by decide, by decide, by decide, by decide,
    by decide, by decide, by decide⟩, rfl⟩

/-- C14 as amended: for every 32-bit i-node number `n` (0 standing for the root i-node) and
every super block with `s_inodes_per_group > 0`, when
`grp_block * block_size + (k - 1) * sizeof(ext2_inode_t)` stays below `2 ^ 32`,
`ext2_get_inode` selects the group `g = (n - 1) / s_inodes_per_group` and the local index
`k = n - g * s_inodes_per_group` with `1 <= k <= s_inodes_per_group`, and reads the sector
and copies from the offset with `sector * 512 + offset` equal to that sum and
`offset < 512`; the block size is one of 1024, 2048, 4096. -/
theorem ext2_get_inode_slot (c : Ext2) (sb : ext2_superblock_t) (gdesc : ext2_group_t)
    (n : Nat) (hn : n < 2 ^ 32) (hroot0 : 0 < c.EXT2_ROOT_INO)
    (hroot : c.EXT2_ROOT_INO < 2 ^ 32) (hipg : 0 < sb.s_inodes_per_group)
    (hov : ext2_grp_block sb gdesc ((inode_number c n - 1) / sb.s_inodes_per_group) *
        get_block_size c sb +
      (inode_number c n -
        (inode_number c n - 1) / sb.s_inodes_per_group * sb.s_inodes_per_group - 1) *
        c.sizeof_ext2_inode_t < 2 ^ 32) :
    ∃ loc, ext2_get_inode c sb gdesc n = some loc ∧
      loc.grp_number = (inode_number c n - 1) / sb.s_inodes_per_group ∧
      loc.number = inode_number c n - loc.grp_number * sb.s_inodes_per_group ∧
      1 ≤ loc.number ∧ loc.number ≤ sb.s_inodes_per_group ∧
      loc.grp_block = ext2_grp_block sb gdesc loc.grp_number ∧
      (get_block_size c sb = 1024 ∨ get_block_size c sb = 2048 ∨
        get_block_size c sb = 4096) ∧
      loc.iblk_addr < 512 ∧
      loc.itab_addr * 512 + loc.iblk_addr =
        loc.grp_block * get_block_size c sb + (loc.number - 1) * c.sizeof_ext2_inode_t := by
  have hN1 : 1 ≤ inode_number c n := by
    unfold inode_number
    split <;> omega
  have hN2 : inode_number c n < 2 ^ 32 := by
    unfold inode_number
    split <;> omega
  unfold ext2_get_inode
  rw [if_neg (Nat.pos_iff_ne_zero.mp hipg)]
  refine ⟨_, rfl, ?_⟩
  dsimp only
  generalize inode_number c n = N at hov hN1 hN2 ⊢
  have hm1 : (N + 2 ^ 32 - 1) % 2 ^ 32 = N - 1 := by omega
  rw [hm1]
  have hg1 : (N - 1) / sb.s_inodes_per_group * sb.s_inodes_per_group ≤ N - 1 :=
    Nat.div_mul_le_self _ _
  have hg2 : N - 1 < (N - 1) / sb.s_inodes_per_group * sb.s_inodes_per_group
      + sb.s_inodes_per_group := by
    have := Nat.lt_mul_div_succ (N - 1) hipg
    rw [Nat.mul_add, Nat.mul_one, Nat.mul_comm] at this
    exact this
  have hg0 : (N - 1) / sb.s_inodes_per_group = 0 →
      (N - 1) / sb.s_inodes_per_group * sb.s_inodes_per_group = 0 := by
    intro h
    rw [h, Nat.zero_mul]
  generalize (N - 1) / sb.s_inodes_per_group = g at hov hg1 hg2 hg0 ⊢
  generalize hP : g * sb.s_inodes_per_group = P at hov hg1 hg2 hg0 ⊢
  have hnum : (if g > 0 then (N + 2 ^ 32 - P % 2 ^ 32) % 2 ^ 32 else N) = N - P := by
    split
    · omega
    · have := hg0 (by omega)
      omega
  rw [hnum]
  have hk1 : (N - P + 2 ^ 32 - 1) % 2 ^ 32 = N - P - 1 := by omega
  rw [hk1]
  have hI : ((N - P - 1) * c.sizeof_ext2_inode_t) % 2 ^ 32 =
      (N - P - 1) * c.sizeof_ext2_inode_t := Nat.mod_eq_of_lt (by omega)
  rw [hI]
  clear hI
  generalize (N - P - 1) * c.sizeof_ext2_inode_t = I at hov ⊢
  simp only [SECTOR_SIZE]
  refine ⟨trivial, trivial, by omega, by omega, trivial, get_block_size_cases c sb, ?_, ?_⟩
  · omega
  · rcases get_block_size_cases c sb with h | h | h <;> rw [h] at hov ⊢ <;> omega

/-- C14 as amended, on the revision 1 file system with 8 i-nodes and 100 blocks per group,
for i-node 49. -/
theorem ext2_get_inode_slot_witness :
    (49 < 2 ^ 32 ∧ 0 < ext2_demo.EXT2_ROOT_INO ∧ ext2_demo.EXT2_ROOT_INO < 2 ^ 32 ∧
      0 < sb_rev1.s_inodes_per_group ∧
      ext2_grp_block sb_rev1 { bg_inode_table := 5 }
          ((inode_number ext2_demo 49 - 1) / sb_rev1.s_inodes_per_group) *
          get_block_size ext2_demo sb_rev1 +
        (inode_number ext2_demo 49 -
          (inode_number ext2_demo 49 - 1) / sb_rev1.s_inodes_per_group *
            sb_rev1.s_inodes_per_group - 1) *
          ext2_demo.sizeof_ext2_inode_t < 2 ^ 32) ∧
      ∃ loc, ext2_get_inode ext2_demo sb_rev1 { bg_inode_table := 5 } 49 = some loc ∧
        loc.grp_number = (inode_number ext2_demo 49 - 1) / sb_rev1.s_inodes_per_group ∧
        loc.number = inode_number ext2_demo 49 - loc.grp_number * sb_rev1.s_inodes_per_group ∧
        1 ≤ loc.number ∧ loc.number ≤ sb_rev1.s_inodes_per_group ∧
        loc.grp_block = ext2_grp_block sb_rev1 { bg_inode_table := 5 } loc.grp_number ∧
        (get_block_size ext2_demo sb_rev1 = 1024 ∨ get_block_size ext2_demo sb_rev1 = 2048 ∨
          get_block_size ext2_demo sb_rev1 = 4096) ∧
        loc.iblk_addr < 512 ∧
        loc.itab_addr * 512 + loc.iblk_addr =
          loc.grp_block * get_block_size ext2_demo sb_rev1 +
            (loc.number - 1) * ext2_demo.sizeof_ext2_inode_t :=
  ⟨⟨by decide, by decide, by decide, by decide, by decide⟩,
    ext2_get_inode_slot ext2_demo sb_rev1 { bg_inode_table := 5 } 49 (by decide) (by decide)
      (by decide) (by decide) (by decide)⟩

end Tempos
